import Mathlib

/-!
Verification development for the TrinityCore entity behavior state machines:
the creature combat-engagement / evade controller and boundary containment
service (src/server/game/AI/CreatureAI.cpp) and the game-object lifecycle /
respawn state machine (src/server/game/Entities/GameObject/GameObject.cpp).

The C++ code is shallowly embedded: each C++ member function that the claims
depend on becomes a Lean function from an explicit state value (plus an
environment record carrying the answers of external collaborators such as the
map, the threat manager and the RNG) to a new state paired with a trace of
observable side effects.  Machine integers are modelled as Nat/Int; world
positions are modelled as integer pairs, which is faithful for the boundary
flood fill because it walks a unit grid of integer offsets.
-/

/-! ## Creature / evade controller model (CreatureAI.cpp) -/

/-- Evade reasons (`CreatureAI::EvadeReason`; a closed enumeration per the
spec: no-hostiles-left, out-of-boundary, other). -/
inductive EvadeReason where
  | noHostiles
  | boundary
  | other
  deriving DecidableEq, Repr

/-- React states (`ReactStates` in the creature headers): passive,
defensive, aggressive. -/
inductive ReactState where
  | passive
  | defensive
  | aggressive
  deriving DecidableEq, Repr

/-- Observable side effects performed on a unit by the evade / victim-update
code paths of CreatureAI.cpp.  Each constructor names the C++ call that
produces it. -/
inductive UnitEffect where
  | removeAurasOnEvade
  | clearAllThreat
  | combatStop
  | setLootRecipientNull
  | resetPlayerDamageReq
  | setLastDamagedTimeZero
  | setCannotReachTargetFalse
  | doNotReacquireTarget
  | motionClear
  | moveFollowOwner
  | moveTargetedHome
  | aiReset
  | attackStart (victim : Nat)
  | attackStop
  deriving DecidableEq, Repr

/-- The creature-side state touched by `CreatureAI::EnterEvadeMode`,
`CreatureAI::_EnterEvadeMode` and `CreatureAI::UpdateVictim`.  Fields mirror
the `Unit`/`Creature` state queried or mutated by those functions; units are
identified by `Nat` handles. -/
structure Creature where
  isAlive : Bool
  /-- `UNIT_STATE_EVADE` flag; `Unit::IsInEvadeMode` reads it and the
  owner-less evade branch sets it.  Modelled from the spec: the evade-state
  unit flag of the CreatureAIContext (the `Unit` header is not part of the
  sources under study). -/
  inEvadeMode : Bool
  isEngaged : Bool
  isInCombat : Bool
  reactState : ReactState
  victim : Option Nat
  threatList : List Nat
  lootRecipient : Option Nat
  hasVehicle : Bool
  charmerOrOwner : Option Nat
  deriving DecidableEq, Repr

/-- Whether the creature has the given react state (`Unit::HasReactState`). -/
def hasReactState (me : Creature) (s : ReactState) : Bool :=
  me.reactState = s

/-- The eight unconditional cleanup calls performed by
`CreatureAI::_EnterEvadeMode` before its `IsInEvadeMode` guard
(CreatureAI.cpp lines 208-217). -/
def evadeCleanupEffects : List UnitEffect :=
  [UnitEffect.removeAurasOnEvade, UnitEffect.clearAllThreat,
   UnitEffect.combatStop, UnitEffect.setLootRecipientNull,
   UnitEffect.resetPlayerDamageReq, UnitEffect.setLastDamagedTimeZero,
   UnitEffect.setCannotReachTargetFalse, UnitEffect.doNotReacquireTarget]

/-- The state change produced by the cleanup calls of `_EnterEvadeMode`:
threat is cleared (`ThreatManager::ClearAllThreat`), combat and the current
attack stop (`Unit::CombatStop(true)`), and the loot-recipient claim is
cleared (`Creature::SetLootRecipient(nullptr)`). -/
def applyEvadeCleanup (me : Creature) : Creature :=
  { me with threatList := [], isInCombat := false, isEngaged := false,
            victim := none, lootRecipient := none }

/-- `CreatureAI::_EnterEvadeMode` (CreatureAI.cpp lines 203-223): returns
false for a dead creature; otherwise performs the cleanup side effects and
only then consults `IsInEvadeMode`, returning false (without undoing the
cleanup) when the creature is already evading. -/
def _EnterEvadeMode (me : Creature) (_why : EvadeReason) :
    Bool × Creature × List UnitEffect :=
  if !me.isAlive then (false, me, [])
  else
    let me1 := applyEvadeCleanup me
    if me1.inEvadeMode then (false, me1, evadeCleanupEffects)
    else (true, me1, evadeCleanupEffects)

/-- `CreatureAI::EnterEvadeMode` (CreatureAI.cpp lines 153-177): on a
successful `_EnterEvadeMode`, either resumes following the owner, or marks
the evade unit state and moves home, then fires the AI `Reset` hook. -/
def EnterEvadeMode (me : Creature) (why : EvadeReason) :
    Creature × List UnitEffect :=
  match _EnterEvadeMode me why with
  | (false, me1, effs) => (me1, effs)
  | (true, me1, effs) =>
    let (me2, moveEffs) :=
      if me1.hasVehicle then (me1, [])
      else
        match me1.charmerOrOwner with
        | some _ => (me1, [UnitEffect.motionClear, UnitEffect.moveFollowOwner])
        | none =>
          ({ me1 with inEvadeMode := true }, [UnitEffect.moveTargetedHome])
    (me2, effs ++ moveEffs ++ [UnitEffect.aiReset])

/-- External collaborator answers consumed by `CreatureAI::UpdateVictim`:
the threat subsystem's victim selection (`Creature::SelectVictim`) and the
focus lock (`Creature::IsFocusing(nullptr, true)`). -/
structure ThreatEnv where
  selectVictim : Option Nat
  isFocusing : Bool
  deriving DecidableEq, Repr

/-- `CreatureAI::UpdateVictim` (CreatureAI.cpp lines 179-201). -/
def UpdateVictim (env : ThreatEnv) (me : Creature) :
    Bool × Creature × List UnitEffect :=
  if !me.isEngaged then (false, me, [])
  else if !(hasReactState me ReactState.passive) then
    let (me1, effs) :=
      match env.selectVictim with
      | some victim =>
        if !env.isFocusing && (some victim ≠ me.victim : Bool) then
          ({ me with victim := some victim }, [UnitEffect.attackStart victim])
        else (me, [])
      | none => (me, [])
    ((me1.victim ≠ none : Bool), me1, effs)
  else if !me.isInCombat then
    let (me1, effs) := EnterEvadeMode me EvadeReason.noHostiles
    (false, me1, effs)
  else if (me.victim ≠ none : Bool) then
    (true, { me with victim := none }, [UnitEffect.attackStop])
  else
    (true, me, [])

/-! ## Perception reentrancy guard (CreatureAI::MoveInLineOfSight_Safe) -/

/-- A synchronous perception callback body: a sequence of primitive engine
side effects interleaved with nested attempts to re-enter
`MoveInLineOfSight_Safe` (each nested attempt carries the callback body it
would run if admitted). -/
inductive PerceptionScript where
  | act (effect : Nat)
  | reenter (who : Nat) (body : List PerceptionScript)

/-- Events observable while running perception scripts. -/
inductive PerceptionEvent where
  | sideEffect (effect : Nat)
  | callbackInvoked (who : Nat)
  deriving DecidableEq, Repr

mutual

/-- Run one perception script under the given reentrancy-flag value.  A
nested `MoveInLineOfSight_Safe` attempt checks the flag exactly as
CreatureAI.cpp line 106 does: when the flag is set the attempt returns
immediately, otherwise the callback is invoked with the flag held. -/
def runPerceptionScript (locked : Bool) : PerceptionScript → List PerceptionEvent
  | PerceptionScript.act e => [PerceptionEvent.sideEffect e]
  | PerceptionScript.reenter who body =>
    if locked then []
    else PerceptionEvent.callbackInvoked who :: runPerceptionScripts true body

/-- Run a list of perception scripts in order under a fixed flag value. -/
def runPerceptionScripts (locked : Bool) : List PerceptionScript → List PerceptionEvent
  | [] => []
  | s :: rest => runPerceptionScript locked s ++ runPerceptionScripts locked rest

end

/-- `CreatureAI::MoveInLineOfSight_Safe` (CreatureAI.cpp lines 104-111):
returns immediately while the per-actor flag is set; otherwise sets the
flag, runs the `MoveInLineOfSight` callback (whose synchronous behavior is
the given script list), and clears the flag.  The result is the flag value
after the call together with the event trace. -/
def MoveInLineOfSight_Safe (locked : Bool) (who : Nat)
    (body : List PerceptionScript) : Bool × List PerceptionEvent :=
  if locked then (locked, [])
  else (false, PerceptionEvent.callbackInvoked who :: runPerceptionScripts true body)

/-- Number of callback invocations in a perception event trace. -/
def countCallbackInvocations (events : List PerceptionEvent) : Nat :=
  events.countP fun e =>
    match e with
    | PerceptionEvent.callbackInvoked _ => true
    | _ => false

/-! ## Boundary containment service and diagnostic flood fill -/

/-- A world position restricted to the plane the boundary flood fill walks:
the fill moves in unit steps along x and y, so integer coordinates are a
faithful carrier for every position it can reach. -/
abbrev Position := Int × Int

/-- `CreatureBoundary` (a vector of `AreaBoundary*`): each area boundary is
its `IsWithinBoundary` predicate. -/
abbrev CreatureBoundary := List (Position → Bool)

/-- The CreatureAI fields consulted by the boundary service: the shared
boundary reference with its negate flag (`_boundary`, `_negateBoundary`) and
the owning creature's current and home positions. -/
structure BoundaryAIState where
  boundary : Option CreatureBoundary
  negateBoundary : Bool
  mePosition : Position
  meHomePosition : Position

/-- `CreatureAI::IsInBounds` (CreatureAI.cpp lines 317-324): conjunction of
all area-boundary predicates. -/
def IsInBounds (boundary : CreatureBoundary) (pos : Position) : Bool :=
  boundary.all fun areaBoundary => areaBoundary pos

/-- `CreatureAI::IsInBoundary` (CreatureAI.cpp lines 306-315): true when no
boundary is configured; otherwise the conjunction of the predicates XOR'd
with the negate flag.  A null `who` defaults to the creature's position. -/
def IsInBoundary (ai : BoundaryAIState) (who : Option Position) : Bool :=
  match ai.boundary with
  | none => true
  | some boundary =>
    let pos := who.getD ai.mePosition
    IsInBounds boundary pos != ai.negateBoundary

/-- Grid coordinate used by `CreatureAI::VisualizeBoundary`
(`typedef std::pair<int32, int32> coordinate`). -/
abbrev Coordinate := Int × Int

def BOUNDARY_VISUALIZE_STEP_SIZE : Int := 1

def BOUNDARY_VISUALIZE_FAILSAFE_LIMIT : Int := 750

/-- Modelled from the spec: the diagnostic status codes of `visualize` come
from the language-string table (Language.h), which is not among the sources
under study; the spec fixes a closed status set
`{Success, PossiblyUnbounded, NotBounded, NoInteriorPointFound}` with
success being 0, so the three non-success codes are modelled as distinct
positive constants. -/
def LANG_CREATURE_MOVEMENT_NOT_BOUNDED : Int := 5062

/-- Modelled from the spec: see `LANG_CREATURE_MOVEMENT_NOT_BOUNDED`. -/
def LANG_CREATURE_MOVEMENT_MAYBE_UNBOUNDED : Int := 5063

/-- Modelled from the spec: see `LANG_CREATURE_MOVEMENT_NOT_BOUNDED`. -/
def LANG_CREATURE_NO_INTERIOR_POINT_FOUND : Int := 5064

/-- A boundary-visualization marker summoned by `VisualizeBoundary`: the
grid cell it is spawned at and whether it carries `UNIT_FLAG_NOT_SELECTABLE`
(set exactly when the cell has no out-of-bounds neighbor). -/
structure BoundaryMarker where
  cell : Coordinate
  notSelectable : Bool
  deriving DecidableEq, Repr

/-- The mutable state of the flood-fill loop of `VisualizeBoundary`: the
queue `Q`, the sets `alreadyChecked` and `outOfBounds`, the `boundsWarning`
flag, and the trace of summoned markers. -/
structure FillState where
  Q : List Coordinate
  alreadyChecked : Finset Coordinate
  outOfBounds : Finset Coordinate
  boundsWarning : Bool
  markers : List BoundaryMarker
  deriving DecidableEq

/-- One iteration of the inner neighbor loop of `VisualizeBoundary`
(CreatureAI.cpp lines 268-291) for a single offset: the accumulator carries
the fill state and the `hasOutOfBoundsNeighbor` flag. -/
def checkNeighbor (containsCell : Coordinate → Bool) (front : Coordinate)
    (acc : FillState × Bool) (off : Coordinate) : FillState × Bool :=
  let st := acc.1
  let next : Coordinate := (front.1 + off.1, front.2 + off.2)
  if next.1 > BOUNDARY_VISUALIZE_FAILSAFE_LIMIT ∨
     next.1 < -BOUNDARY_VISUALIZE_FAILSAFE_LIMIT ∨
     next.2 > BOUNDARY_VISUALIZE_FAILSAFE_LIMIT ∨
     next.2 < -BOUNDARY_VISUALIZE_FAILSAFE_LIMIT then
    ({ st with boundsWarning := true }, acc.2)
  else if next ∉ st.alreadyChecked then
    if containsCell next then
      ({ st with Q := st.Q ++ [next],
                 alreadyChecked := insert next st.alreadyChecked }, acc.2)
    else
      ({ st with outOfBounds := insert next st.outOfBounds,
                 alreadyChecked := insert next st.alreadyChecked }, true)
  else if next ∈ st.outOfBounds then (st, true)
  else acc

/-- The four-neighbor scan of one popped cell (CreatureAI.cpp line 268). -/
def expandFront (containsCell : Coordinate → Bool) (front : Coordinate)
    (st : FillState) : FillState × Bool :=
  [((1 : Int), (0 : Int)), (0, 1), (-1, 0), (0, -1)].foldl
    (checkNeighbor containsCell front) (st, false)

/-- The flood-fill loop of `VisualizeBoundary` (CreatureAI.cpp lines
264-302), written with a fuel counter; `none` means the fuel ran out, which
the boundedness theorem shows never happens for the fuel budget used by
`VisualizeBoundary`. -/
def visualizeLoop (containsCell : Coordinate → Bool) (fill : Bool) :
    Nat → FillState → Option FillState
  | 0, _ => none
  | fuel + 1, st =>
    match st.Q with
    | [] => some st
    | front :: rest =>
      let res := expandFront containsCell front { st with Q := rest }
      let st1 := res.1
      let hasOutOfBoundsNeighbor := res.2
      let st2 :=
        if fill || hasOutOfBoundsNeighbor then
          { st1 with markers :=
              st1.markers ++ [⟨front, !hasOutOfBoundsNeighbor⟩] }
        else st1
      visualizeLoop containsCell fill fuel st2

/-- All grid cells within the ±750 failsafe cap on both axes. -/
def boundaryGridCells : Finset Coordinate :=
  Finset.Icc (-BOUNDARY_VISUALIZE_FAILSAFE_LIMIT) BOUNDARY_VISUALIZE_FAILSAFE_LIMIT ×ˢ
    Finset.Icc (-BOUNDARY_VISUALIZE_FAILSAFE_LIMIT) BOUNDARY_VISUALIZE_FAILSAFE_LIMIT

/-- Fuel budget for the flood fill: strictly more than the measure
`2 * |grid| + |Q|` of the initial state, which bounds the iteration count. -/
def visualizeFuel : Nat := 2 * (1501 * 1501) + 2

/-- Outcome of the flood-fill phase of `VisualizeBoundary`. -/
inductive FillOutcome where
  | notRun
  | fuelExhausted
  | completed (st : FillState)
  deriving DecidableEq

/-- Result of `VisualizeBoundary`: the returned status code, the seed
position the fill started from (when one was found), and the fill outcome. -/
structure VisualizeResult where
  status : Int
  seedPosition : Option Position
  outcome : FillOutcome
  deriving DecidableEq

/-- `CreatureAI::VisualizeBoundary` (CreatureAI.cpp lines 235-304).  The
`duration` parameter only scales the markers' despawn timers and is carried
for signature fidelity; `owner` is the requesting actor (null modelled as
`none`). -/
def VisualizeBoundary (ai : BoundaryAIState) (_duration : Nat)
    (owner : Option Position) (fill : Bool) : VisualizeResult :=
  match owner with
  | none => { status := -1, seedPosition := none, outcome := FillOutcome.notRun }
  | some ownerPosition =>
    match ai.boundary with
    | none =>
      { status := LANG_CREATURE_MOVEMENT_NOT_BOUNDED, seedPosition := none,
        outcome := FillOutcome.notRun }
    | some boundary =>
      if boundary.isEmpty then
        { status := LANG_CREATURE_MOVEMENT_NOT_BOUNDED, seedPosition := none,
          outcome := FillOutcome.notRun }
      else
        let startPosition? : Option Position :=
          if IsInBoundary ai (some ownerPosition) then some ownerPosition
          else if IsInBoundary ai (some ai.mePosition) then some ai.mePosition
          else if IsInBoundary ai (some ai.meHomePosition) then
            some ai.meHomePosition
          else none
        match startPosition? with
        | none =>
          { status := LANG_CREATURE_NO_INTERIOR_POINT_FOUND,
            seedPosition := none, outcome := FillOutcome.notRun }
        | some startPosition =>
          let containsCell : Coordinate → Bool := fun c =>
            IsInBoundary ai (some
              (startPosition.1 + c.1 * BOUNDARY_VISUALIZE_STEP_SIZE,
               startPosition.2 + c.2 * BOUNDARY_VISUALIZE_STEP_SIZE))
          let st0 : FillState :=
            { Q := [(0, 0)], alreadyChecked := ∅, outOfBounds := ∅,
              boundsWarning := false, markers := [] }
          match visualizeLoop containsCell fill visualizeFuel st0 with
          | none =>
            { status := 0, seedPosition := some startPosition,
              outcome := FillOutcome.fuelExhausted }
          | some stF =>
            { status :=
                if stF.boundsWarning then
                  LANG_CREATURE_MOVEMENT_MAYBE_UNBOUNDED
                else 0,
              seedPosition := some startPosition,
              outcome := FillOutcome.completed stF }

/-- Whether the fill loop ran out of fuel (never, by the boundedness
theorem). -/
def fuelRanOut (r : VisualizeResult) : Bool :=
  match r.outcome with
  | FillOutcome.fuelExhausted => true
  | _ => false

/-- Whether the fill loop ran and completed. -/
def fillCompleted (r : VisualizeResult) : Bool :=
  match r.outcome with
  | FillOutcome.completed _ => true
  | _ => false

/-- The set of grid cells the completed fill checked. -/
def visitedCells (r : VisualizeResult) : Finset Coordinate :=
  match r.outcome with
  | FillOutcome.completed st => st.alreadyChecked
  | _ => ∅

/-- The bounds-warning flag of the completed fill. -/
def fillWarning (r : VisualizeResult) : Bool :=
  match r.outcome with
  | FillOutcome.completed st => st.boundsWarning
  | _ => false

/-- The markers the fill summoned. -/
def fillMarkers (r : VisualizeResult) : List BoundaryMarker :=
  match r.outcome with
  | FillOutcome.completed st => st.markers
  | _ => []

/-! ## Game-object lifecycle state machine (GameObject.cpp) -/

/-- Loot states (`LootState` enum): the four-state lifecycle machine. -/
inductive LootState where
  | notReady
  | ready
  | activated
  | justDeactivated
  deriving DecidableEq, Repr

/-- Go states (`GOState` enum): visual/interaction posture. -/
inductive GOState where
  | ready
  | active
  | activeAlternative
  | transportActive
  | transportStopped (frame : Nat)
  deriving DecidableEq, Repr

/-- Game-object subtypes (`GameobjectTypes` enum), restricted to the
subtypes the modelled code paths dispatch on; `generic` stands for every
subtype hitting the `default` arms. -/
inductive GameobjectTypes where
  | door
  | button
  | questgiver
  | chest
  | trap
  | goober
  | transport
  | fishingnode
  | fishinghole
  | generic
  | destructibleBuilding
  | mapObjTransport
  deriving DecidableEq, Repr

/-- Observable side effects of the modelled GameObject member functions.
Each constructor names the C++ call that produces it. -/
inductive GOEvent where
  | onLootStateChanged (state : LootState) (unit : Option Nat)
  | onStateChanged (state : GOState)
  | enableCollision (enabled : Bool)
  | aiReset
  | addToMap
  | updatePool
  | saveRespawnTimeDB
  | saveRespawnTimeMapMemory (savetodb : Bool)
  | sendGameObjectDespawn
  | destroyForNearbyPlayers
  | addObjectToRemoveList
  | despawnLinkedTrap
  | removeFromOwner
  | setOverrideFlags
  | fishEscaped
  | removeGameObjectFromOwner
  | removeFlagInUse
  | castGooberSpell (player : Nat)
  | updateObjectVisibility
  deriving DecidableEq, Repr

/-- The GameObject instance state read or written by the modelled member
functions, together with the immutable template fields they consult
(`trap...`, `gooberSpell`, `templateCharges`, `despawnAtAction`). -/
structure GameObject where
  lootState : LootState
  lootStateUnitGUID : Option Nat
  goState : GOState
  prevGoState : GOState
  goType : GameobjectTypes
  hasModel : Bool
  isInWorld : Bool
  collisionEnabled : Bool
  respawnTime : Nat
  respawnDelayTime : Nat
  spawnedByDefault : Bool
  respawnCompatibilityMode : Bool
  usetimes : Nat
  skillupList : List Nat
  spawnId : Nat
  guid : Nat
  spellId : Nat
  ownerGUID : Option Nat
  goAnimProgress : Nat
  despawnAtAction : Bool
  uniqueUsers : List Nat
  lootItems : List Nat
  cooldownTimeMS : Nat
  inUseFlag : Bool
  hasGoData : Bool
  gooberSpell : Nat
  trapCharges : Nat
  trapRadius : Nat
  trapCooldown : Nat
  templateCharges : Nat
  fishingHoleMaxOpens : Nat
  deriving DecidableEq, Repr

/-- Answers of the external collaborators consulted by `GameObject::Update`:
game time, the map's linked-respawn records, the RNG, the pool manager, the
world configuration, and the grid searches used by trap activation. -/
structure GOEnv where
  now : Nat
  nowMS : Nat
  linkedRespawnTime : Nat
  linkedRespawnGuid : Nat
  respawnJitter : Nat
  poolId : Nat
  hasLinkedTrap : Bool
  hasGoOverride : Bool
  overrideFlagsNoDespawn : Bool
  dynamicRespawnScalingMode : Nat
  scaledRespawnDelay : Nat → Nat
  saveRespawnTimeImmediately : Bool
  trapTarget : Option Nat
  ownerIsPlayer : Bool
  fishingHoleRestock : Nat

/-- `WEEK` (shared time constant): seconds in a week. -/
def WEEK : Int := 7 * 24 * 60 * 60

/-- `GameObject::IsTransport` (GameObject.cpp lines 1311-1319). -/
def isTransportGO (go : GameObject) : Bool :=
  go.goType = GameobjectTypes.transport ∨
    go.goType = GameobjectTypes.mapObjTransport

/-- `GameObject::EnableCollision` applied to the attached model. -/
def EnableCollision (go : GameObject) (enable : Bool) :
    GameObject × List GOEvent :=
  ({ go with collisionEnabled := enable }, [GOEvent.enableCollision enable])

/-- `GameObject::SetLootState` (GameObject.cpp lines 2513-2535): stores the
state and interacting unit, fires the AI hook, and — except for doors —
toggles collision computed from the new loot-state and the current
go-state. -/
def SetLootState (go : GameObject) (state : LootState) (unit : Option Nat) :
    GameObject × List GOEvent :=
  let go1 := { go with lootState := state, lootStateUnitGUID := unit }
  let evs := [GOEvent.onLootStateChanged state unit]
  if go1.goType = GameobjectTypes.door then (go1, evs)
  else if go1.hasModel then
    let collision :=
      if (go1.goState ≠ GOState.ready ∧
          (state = LootState.activated ∨ state = LootState.justDeactivated)) ∨
         state = LootState.ready then true else false
    let (go2, evs2) := EnableCollision go1 collision
    (go2, evs ++ evs2)
  else (go1, evs)

/-- `GameObject::SetGoState` (GameObject.cpp lines 2542-2559): stores the
state, fires the AI hook, and for modelled non-transports in world toggles
collision, enabled exactly when the new go-state is Ready. -/
def SetGoState (go : GameObject) (state : GOState) :
    GameObject × List GOEvent :=
  let go1 := { go with goState := state }
  let evs := [GOEvent.onStateChanged state]
  if go1.hasModel ∧ ¬isTransportGO go1 then
    if !go1.isInWorld then (go1, evs)
    else
      let collision := if state = GOState.ready then true else false
      let (go2, evs2) := EnableCollision go1 collision
      (go2, evs ++ evs2)
  else (go1, evs)

/-- `GameObject::SetRespawnTime` (GameObject.cpp lines 1425-1431). -/
def SetRespawnTime (env : GOEnv) (go : GameObject) (respawn : Int) :
    GameObject × List GOEvent :=
  let go1 :=
    { go with respawnTime := if respawn > 0 then env.now + respawn.toNat else 0,
              respawnDelayTime := if respawn > 0 then respawn.toNat else 0 }
  if respawn ≠ 0 ∧ !go.spawnedByDefault then
    (go1, [GOEvent.updateObjectVisibility])
  else (go1, [])

/-- `GameObject::SaveRespawnTime` (GameObject.cpp lines 1341-1354): persists
the pending respawn for database-backed, default-spawned instances — to the
database respawn store in compatibility mode, otherwise to the map-memory
respawn store. -/
def SaveRespawnTime (env : GOEnv) (go : GameObject) (forceDelay : Nat)
    (savetodb : Bool) : List GOEvent :=
  if go.hasGoData ∧ (forceDelay ≠ 0 ∨ env.now < go.respawnTime) ∧
     go.spawnedByDefault then
    if go.respawnCompatibilityMode then [GOEvent.saveRespawnTimeDB]
    else [GOEvent.saveRespawnTimeMapMemory savetodb]
  else []

/-- `GameObject::ResetDoorOrButton` (GameObject.cpp lines 1513-1523). -/
def ResetDoorOrButton (go : GameObject) : GameObject × List GOEvent :=
  if go.lootState = LootState.ready ∨ go.lootState = LootState.justDeactivated
  then (go, [])
  else
    let go1 := { go with inUseFlag := false }
    let (go2, evs2) := SetGoState go1 go.prevGoState
    let (go3, evs3) := SetLootState go2 LootState.justDeactivated none
    ({ go3 with cooldownTimeMS := 0 },
     GOEvent.removeFlagInUse :: evs2 ++ evs3)

/-- `GameObject::Delete` (GameObject.cpp lines 1013-1034). -/
def DeleteGO (env : GOEnv) (go : GameObject) : GameObject × List GOEvent :=
  let evs0 := if env.hasLinkedTrap then [GOEvent.despawnLinkedTrap] else []
  let (go1, evs1) := SetLootState go LootState.notReady none
  let (go2, evs2) := SetGoState go1 GOState.ready
  let evsOverride := if env.hasGoOverride then [GOEvent.setOverrideFlags] else []
  let evsEnd :=
    if go2.spawnId ≠ 0 ∧ env.poolId ≠ 0 then [GOEvent.updatePool]
    else [GOEvent.addObjectToRemoveList]
  (go2, evs0 ++ evs1 ++ [GOEvent.removeFromOwner, GOEvent.sendGameObjectDespawn]
          ++ evs2 ++ evsOverride ++ evsEnd)

/-- `GameObject::isSpawned`.  Modelled from the spec and the header (the
GameObject header is not among the sources under study): an instance counts
as spawned when it has no despawn delay configured, or its respawn timer is
pending while not spawned-by-default, or its timer is off while
spawned-by-default. -/
def isSpawned (go : GameObject) : Bool :=
  go.respawnDelayTime = 0 ∨
    (go.respawnTime > 0 ∧ !go.spawnedByDefault) ∨
    (go.respawnTime = 0 ∧ go.spawnedByDefault)

/-- The tail of the `GO_READY` case of `GameObject::Update` after the
compatibility-mode respawn block (GameObject.cpp lines 719-787): the modern
mode respawn-timer save, then the trap-activation / charge-exhaustion checks
for spawned instances. -/
def updateGoReadyTail (env : GOEnv) (go : GameObject) :
    GameObject × List GOEvent :=
  let evsA :=
    if ¬go.respawnCompatibilityMode ∧ go.respawnTime > 0 then
      SaveRespawnTime env go 0 false
    else []
  if isSpawned go then
    if go.goType = GameobjectTypes.trap then
      if env.nowMS < go.cooldownTimeMS then (go, evsA)
      else if go.trapCharges = 2 then
        let (go1, evs1) := SetLootState go LootState.activated none
        (go1, evsA ++ evs1)
      else if go.trapRadius = 0 ∧ go.trapCooldown ≠ 3 then (go, evsA)
      else
        match env.trapTarget with
        | some target =>
          let (go1, evs1) := SetLootState go LootState.activated (some target)
          (go1, evsA ++ evs1)
        | none => (go, evsA)
    else if go.templateCharges ≠ 0 then
      if go.usetimes ≥ go.templateCharges then
        let go1 := { go with usetimes := 0 }
        let (go2, evs2) := SetLootState go1 LootState.justDeactivated none
        (go2, evsA ++ evs2)
      else (go, evsA)
    else (go, evsA)
  else (go, evsA)

/-- The `GO_READY` case of `GameObject::Update` (GameObject.cpp lines
642-788).  In compatibility mode an expired respawn timer first resolves the
linked-respawn dependency: a still-dead master defers the respawn (a
self-link reschedules a week ahead), otherwise the instance resets its use
counters, runs the subtype respawn actions, and either deactivates (not
spawned-by-default) or re-adds itself to the simulation. -/
def updateGoReady (env : GOEnv) (go : GameObject) :
    GameObject × List GOEvent :=
  if go.respawnCompatibilityMode ∧ go.respawnTime > 0 ∧
     go.respawnTime ≤ env.now then
    if env.linkedRespawnTime ≠ 0 then
      if env.linkedRespawnGuid = go.guid then
        let (go1, evs1) := SetRespawnTime env go WEEK
        (go1, evs1 ++ SaveRespawnTime env go1 0 true)
      else
        let newTime := max env.now env.linkedRespawnTime + env.respawnJitter
        let go1 := { go with respawnTime := newTime }
        (go1, SaveRespawnTime env go1 0 true)
    else
      let go1 := { go with respawnTime := 0, skillupList := [], usetimes := 0 }
      if go1.goType = GameobjectTypes.fishingnode then
        let evs :=
          if go1.ownerGUID ≠ none ∧ env.ownerIsPlayer then
            [GOEvent.removeGameObjectFromOwner, GOEvent.fishEscaped]
          else []
        ({ go1 with lootState := LootState.justDeactivated }, evs)
      else
        let (go2, evs2) :=
          match go1.goType with
          | GameobjectTypes.door | GameobjectTypes.button =>
            if go1.goState ≠ GOState.ready then ResetDoorOrButton go1
            else (go1, [])
          | GameobjectTypes.fishinghole =>
            ({ go1 with fishingHoleMaxOpens := env.fishingHoleRestock }, [])
          | _ => (go1, [])
        if !go2.spawnedByDefault then
          let (go3, evs3) := SetLootState go2 LootState.justDeactivated none
          (go3, evs2 ++ evs3)
        else
          let evs3 :=
            evs2 ++ [GOEvent.aiReset] ++
              (if go2.spawnId ≠ 0 ∧ env.poolId ≠ 0 then [GOEvent.updatePool]
               else [GOEvent.addToMap])
          let (go4, evs4) := updateGoReadyTail env go2
          (go4, evs3 ++ evs4)
  else
    updateGoReadyTail env go

/-- The goober consumption step of the `GO_JUST_DEACTIVATED` case
(GameObject.cpp lines 866-888): cast the consumption spell on every unique
user, reset the go-state, and report (third component) whether the
battleground no-despawn override forces an early return. -/
def gooberConsumption (env : GOEnv) (go : GameObject) :
    GameObject × List GOEvent × Bool :=
  if go.goType = GameobjectTypes.goober then
    let withCasts :=
      if go.gooberSpell ≠ 0 then
        ({ go with uniqueUsers := [], usetimes := 0 },
         go.uniqueUsers.map GOEvent.castGooberSpell)
      else (go, [])
    let stateReset := SetGoState withCasts.1 GOState.ready
    (stateReset.1, withCasts.2 ++ stateReset.2,
     env.hasGoOverride ∧ env.overrideFlagsNoDespawn)
  else (go, [], false)

/-- The final-disposition step of the `GO_JUST_DEACTIVATED` case
(GameObject.cpp lines 890-960): clear the loot, keep or delete
spell-spawned instances, permanently remove non-default-spawned instances,
or schedule the respawn. -/
def goFinalDisposition (env : GOEnv) (go1 : GameObject) :
    GameObject × List GOEvent :=
  let go2 := { go1 with lootItems := [] }
  if go2.spellId ≠ 0 ∨ go2.ownerGUID ≠ none then
    if go2.respawnTime > 0 ∧ go2.goType = GameobjectTypes.chest ∧
       ¬go2.despawnAtAction then
      let readyAgain := SetLootState go2 LootState.ready none
      (readyAgain.1, GOEvent.updateObjectVisibility :: readyAgain.2)
    else
      let cleared := SetRespawnTime env go2 0
      let deleted := DeleteGO env cleared.1
      (deleted.1, cleared.2 ++ deleted.2)
  else
    let notReadyRes := SetLootState go2 LootState.notReady none
    let go3 := notReadyRes.1
    let evs4 :=
      if go3.despawnAtAction ∨ go3.goAnimProgress > 0 then
        GOEvent.sendGameObjectDespawn ::
          (if env.hasGoOverride then [GOEvent.setOverrideFlags] else [])
      else []
    if go3.respawnDelayTime = 0 then (go3, notReadyRes.2 ++ evs4)
    else if !go3.spawnedByDefault then
      let go4 := { go3 with respawnTime := 0 }
      if go4.spawnId ≠ 0 then
        (go4, notReadyRes.2 ++ evs4 ++ [GOEvent.destroyForNearbyPlayers])
      else
        let deleted := DeleteGO env go4
        (deleted.1, notReadyRes.2 ++ evs4 ++ deleted.2)
    else
      let respawnDelay :=
        if env.dynamicRespawnScalingMode ≠ 0 then
          env.scaledRespawnDelay go3.respawnDelayTime
        else go3.respawnDelayTime
      let go4 := { go3 with respawnTime := env.now + respawnDelay }
      let evs5 :=
        if env.saveRespawnTimeImmediately then SaveRespawnTime env go4 0 true
        else []
      if !go4.respawnCompatibilityMode then
        let evs6 :=
          if ¬env.saveRespawnTimeImmediately then
            SaveRespawnTime env go4 0 false
          else []
        (go4, notReadyRes.2 ++ evs4 ++ evs5 ++ evs6 ++
                [GOEvent.addObjectToRemoveList])
      else
        (go4, notReadyRes.2 ++ evs4 ++ evs5 ++
                [GOEvent.destroyForNearbyPlayers])

/-- The `GO_JUST_DEACTIVATED` case of `GameObject::Update` (GameObject.cpp
lines 860-961): despawn any linked trap, run the goober consumption rewards
(returning early under the battleground no-despawn override), then decide
the final disposition. -/
def updateGoJustDeactivated (env : GOEnv) (go : GameObject) :
    GameObject × List GOEvent :=
  let evs0 := if env.hasLinkedTrap then [GOEvent.despawnLinkedTrap] else []
  let goober := gooberConsumption env go
  if goober.2.2 then (goober.1, evs0 ++ goober.2.1)
  else
    let final := goFinalDisposition env goober.1
    (final.1, evs0 ++ goober.2.1 ++ final.2)

/-- Iterate the `GO_READY` update over a sequence of ticks, collecting the
event traces. -/
def runReadyTicks (envs : List GOEnv) (go : GameObject) :
    GameObject × List GOEvent :=
  match envs with
  | [] => (go, [])
  | env :: rest =>
    let res := updateGoReady env go
    let tail := runReadyTicks rest res.1
    (tail.1, res.2 ++ tail.2)

/-! ## Concrete instances used by counterexamples and witnesses -/

/-- An alive creature that is already in evade mode, with accumulated threat,
a victim and a loot-recipient claim. -/
def evadingCreature : Creature :=
  { isAlive := true, inEvadeMode := true, isEngaged := true, isInCombat := true,
    reactState := ReactState.aggressive, victim := some 4, threatList := [7],
    lootRecipient := some 9, hasVehicle := false, charmerOrOwner := none }

/-- An engaged, passive, in-combat creature with a current victim. -/
def passiveCombatCreature : Creature :=
  { isAlive := true, inEvadeMode := false, isEngaged := true, isInCombat := true,
    reactState := ReactState.passive, victim := some 4, threatList := [7],
    lootRecipient := some 9, hasVehicle := false, charmerOrOwner := none }

/-! ## Theorems -/

/-- Claim C1, counterexample: invoking evade-entry on an alive creature that
is already in evade mode is not a no-op — the effect trace is nonempty and in
particular threat is cleared again, combat is stopped again and the
loot-recipient claim is cleared again, because `_EnterEvadeMode` performs
those calls before consulting `IsInEvadeMode`. -/
theorem enterEvadeMode_already_evading_not_noop :
    (EnterEvadeMode evadingCreature EvadeReason.other).2 ≠ [] ∧
    UnitEffect.clearAllThreat ∈ (EnterEvadeMode evadingCreature EvadeReason.other).2 ∧
    UnitEffect.combatStop ∈ (EnterEvadeMode evadingCreature EvadeReason.other).2 ∧
    UnitEffect.setLootRecipientNull ∈ (EnterEvadeMode evadingCreature EvadeReason.other).2 ∧
    (EnterEvadeMode evadingCreature EvadeReason.other).1 ≠ evadingCreature := by
  decide

/-- Claim C1, amended: invoking evade-entry on an alive, already-evading
creature repeats the pre-guard cleanup (aura removal, threat clear, combat
stop, loot-recipient clear, flag resets) but fires no AI reset hook and
issues no movement command, because the idempotence guard sits after the
cleanup calls. -/
theorem enterEvadeMode_already_evading_repeats_cleanup
    (me : Creature) (why : EvadeReason)
    (halive : me.isAlive = true) (hevade : me.inEvadeMode = true) :
    EnterEvadeMode me why = (applyEvadeCleanup me, evadeCleanupEffects) ∧
    UnitEffect.clearAllThreat ∈ (EnterEvadeMode me why).2 ∧
    UnitEffect.combatStop ∈ (EnterEvadeMode me why).2 ∧
    UnitEffect.setLootRecipientNull ∈ (EnterEvadeMode me why).2 ∧
    UnitEffect.aiReset ∉ (EnterEvadeMode me why).2 ∧
    UnitEffect.moveTargetedHome ∉ (EnterEvadeMode me why).2 ∧
    UnitEffect.moveFollowOwner ∉ (EnterEvadeMode me why).2 ∧
    UnitEffect.motionClear ∉ (EnterEvadeMode me why).2 := by
  have h : EnterEvadeMode me why = (applyEvadeCleanup me, evadeCleanupEffects) := by
    unfold EnterEvadeMode _EnterEvadeMode
    simp [halive, applyEvadeCleanup, hevade]
  refine ⟨h, ?_, ?_, ?_, ?_, ?_, ?_, ?_⟩ <;> rw [h] <;>
    simp [evadeCleanupEffects]

/-- Claim C1, witness for the amended theorem at a concrete evading
creature. -/
theorem enterEvadeMode_already_evading_repeats_cleanup_witness :
    evadingCreature.isAlive = true ∧ evadingCreature.inEvadeMode = true ∧
    (EnterEvadeMode evadingCreature EvadeReason.boundary =
      (applyEvadeCleanup evadingCreature, evadeCleanupEffects) ∧
    UnitEffect.clearAllThreat ∈ (EnterEvadeMode evadingCreature EvadeReason.boundary).2 ∧
    UnitEffect.combatStop ∈ (EnterEvadeMode evadingCreature EvadeReason.boundary).2 ∧
    UnitEffect.setLootRecipientNull ∈ (EnterEvadeMode evadingCreature EvadeReason.boundary).2 ∧
    UnitEffect.aiReset ∉ (EnterEvadeMode evadingCreature EvadeReason.boundary).2 ∧
    UnitEffect.moveTargetedHome ∉ (EnterEvadeMode evadingCreature EvadeReason.boundary).2 ∧
    UnitEffect.moveFollowOwner ∉ (EnterEvadeMode evadingCreature EvadeReason.boundary).2 ∧
    UnitEffect.motionClear ∉ (EnterEvadeMode evadingCreature EvadeReason.boundary).2) :=
  ⟨rfl, rfl,
   enterEvadeMode_already_evading_repeats_cleanup evadingCreature
     EvadeReason.boundary rfl rfl⟩

/-- Helper: under a set reentrancy flag a single perception script invokes no
callback — a nested `MoveInLineOfSight_Safe` attempt is dropped before its
body runs. -/
theorem countCallback_runScript_locked (s : PerceptionScript) :
    countCallbackInvocations (runPerceptionScript true s) = 0 := by
  cases s <;> simp [runPerceptionScript, countCallbackInvocations]

/-- Helper: under a set reentrancy flag a whole perception script list
invokes no callback. -/
theorem countCallback_runScripts_locked (ss : List PerceptionScript) :
    countCallbackInvocations (runPerceptionScripts true ss) = 0 := by
  induction ss with
  | nil => simp [runPerceptionScripts, countCallbackInvocations]
  | cons s rest ih =>
    have hs := countCallback_runScript_locked s
    simp only [runPerceptionScripts, countCallbackInvocations,
      List.countP_append] at *
    omega

/-- Claim C8: a call to `MoveInLineOfSight_Safe` made while the flag is set
returns immediately without invoking the callback; a top-level call from the
rest state leaves the flag false afterwards, and all nested re-entry
attempts made by the callback's own side effects are dropped (exactly one
callback invocation occurs), never queued or executed. -/
theorem moveInLineOfSight_safe_reentrancy_guard
    (who : Nat) (body : List PerceptionScript) :
    MoveInLineOfSight_Safe true who body = (true, []) ∧
    (MoveInLineOfSight_Safe false who body).1 = false ∧
    countCallbackInvocations (MoveInLineOfSight_Safe false who body).2 = 1 := by
  refine ⟨rfl, rfl, ?_⟩
  have h := countCallback_runScripts_locked body
  simp only [MoveInLineOfSight_Safe, if_neg (by simp : ¬ (false = true)),
    countCallbackInvocations, List.countP_cons] at *
  simp [h]

/-- Claim C9: `UpdateVictim` on an engaged, passive, in-combat creature with
a current victim stops the attack, does not enter evade mode (the evade flag
is untouched and no evade effect fires), and returns true with the combat
flag still set. -/
theorem updateVictim_passive_in_combat_stops_attack
    (env : ThreatEnv) (me : Creature) (v : Nat)
    (heng : me.isEngaged = true) (hpass : me.reactState = ReactState.passive)
    (hcmb : me.isInCombat = true) (hvic : me.victim = some v) :
    UpdateVictim env me = (true, { me with victim := none }, [UnitEffect.attackStop]) ∧
    (UpdateVictim env me).2.1.inEvadeMode = me.inEvadeMode ∧
    (UpdateVictim env me).2.1.isInCombat = true ∧
    UnitEffect.aiReset ∉ (UpdateVictim env me).2.2 ∧
    UnitEffect.moveTargetedHome ∉ (UpdateVictim env me).2.2 ∧
    (UpdateVictim env me).1 = true := by
  have h : UpdateVictim env me =
      (true, { me with victim := none }, [UnitEffect.attackStop]) := by
    unfold UpdateVictim
    simp [heng, hasReactState, hpass, hcmb, hvic]
  refine ⟨h, ?_, ?_, ?_, ?_, ?_⟩ <;> rw [h] <;> simp [hcmb]

/-- Claim C9, witness at a concrete passive in-combat creature. -/
theorem updateVictim_passive_in_combat_stops_attack_witness :
    passiveCombatCreature.isEngaged = true ∧
    passiveCombatCreature.reactState = ReactState.passive ∧
    passiveCombatCreature.isInCombat = true ∧
    passiveCombatCreature.victim = some 4 ∧
    (UpdateVictim ⟨some 3, false⟩ passiveCombatCreature =
      (true, { passiveCombatCreature with victim := none },
       [UnitEffect.attackStop]) ∧
    (UpdateVictim ⟨some 3, false⟩ passiveCombatCreature).2.1.inEvadeMode =
      passiveCombatCreature.inEvadeMode ∧
    (UpdateVictim ⟨some 3, false⟩ passiveCombatCreature).2.1.isInCombat = true ∧
    UnitEffect.aiReset ∉ (UpdateVictim ⟨some 3, false⟩ passiveCombatCreature).2.2 ∧
    UnitEffect.moveTargetedHome ∉
      (UpdateVictim ⟨some 3, false⟩ passiveCombatCreature).2.2 ∧
    (UpdateVictim ⟨some 3, false⟩ passiveCombatCreature).1 = true) :=
  ⟨rfl, rfl, rfl, rfl,
   updateVictim_passive_in_combat_stops_attack ⟨some 3, false⟩
     passiveCombatCreature 4 rfl rfl rfl rfl⟩

/-- Claim C10: `VisualizeBoundary` with a null requesting actor returns -1
for every AI state — before examining the boundary (the result does not
depend on it) and without spawning any marker — and -1 lies outside the
documented status set of success (0), possibly-unbounded, not-bounded and
no-interior-point-found. -/
theorem visualizeBoundary_null_owner_returns_minus_one
    (ai : BoundaryAIState) (duration : Nat) (fill : Bool) :
    VisualizeBoundary ai duration none fill =
      { status := -1, seedPosition := none, outcome := FillOutcome.notRun } ∧
    fillMarkers (VisualizeBoundary ai duration none fill) = [] ∧
    visitedCells (VisualizeBoundary ai duration none fill) = ∅ ∧
    (-1 : Int) ≠ 0 ∧
    (-1 : Int) ≠ LANG_CREATURE_MOVEMENT_MAYBE_UNBOUNDED ∧
    (-1 : Int) ≠ LANG_CREATURE_MOVEMENT_NOT_BOUNDED ∧
    (-1 : Int) ≠ LANG_CREATURE_NO_INTERIOR_POINT_FOUND := by
  exact ⟨rfl, rfl, rfl, by decide, by decide, by decide, by decide⟩

/-- A button game object with a model, in world, used by the C5
counterexample and witnesses. -/
def buttonInstance : GameObject :=
  { lootState := LootState.activated, lootStateUnitGUID := none,
    goState := GOState.active, prevGoState := GOState.ready,
    goType := GameobjectTypes.button, hasModel := true, isInWorld := true,
    collisionEnabled := false, respawnTime := 0, respawnDelayTime := 100,
    spawnedByDefault := true, respawnCompatibilityMode := true, usetimes := 0,
    skillupList := [], spawnId := 11, guid := 21, spellId := 0,
    ownerGUID := none, goAnimProgress := 0, despawnAtAction := false,
    uniqueUsers := [], lootItems := [], cooldownTimeMS := 0, inUseFlag := false,
    hasGoData := true, gooberSpell := 0, trapCharges := 0, trapRadius := 0,
    trapCooldown := 0, templateCharges := 0, fishingHoleMaxOpens := 0 }

/-- Claim C5, counterexample: changing the loot-state of a button does
toggle its collision shape — `SetLootState` only exempts
`GAMEOBJECT_TYPE_DOOR`, so a button with a model gets an `EnableCollision`
call and its collision state flips. -/
theorem setLootState_button_toggles_collision :
    GOEvent.enableCollision true ∈
      (SetLootState buttonInstance LootState.ready none).2 ∧
    (SetLootState buttonInstance LootState.ready none).1.collisionEnabled ≠
      buttonInstance.collisionEnabled := by
  decide

/-- Claim C5, amended: changing loot-state never toggles the collision shape
of a door — door collision is governed solely by go-state, toggled in
`SetGoState` and enabled exactly when the go-state is Ready — while for
every other subtype with a model (buttons included) `SetLootState` toggles
collision according to the new loot-state and the current go-state. -/
theorem collision_door_exempt_in_setLootState
    (go : GameObject) (state : LootState) (unit : Option Nat) (gstate : GOState)
    (hdoor : go.goType = GameobjectTypes.door)
    (go2 : GameObject) (hnotdoor : go2.goType ≠ GameobjectTypes.door)
    (hmodel : go2.hasModel = true)
    (go3 : GameObject) (hmodel3 : go3.hasModel = true)
    (htrans : isTransportGO go3 = false) (hworld : go3.isInWorld = true) :
    ((SetLootState go state unit).2 =
      [GOEvent.onLootStateChanged state unit] ∧
     (SetLootState go state unit).1.collisionEnabled = go.collisionEnabled) ∧
    (SetLootState go2 state unit).2 =
      [GOEvent.onLootStateChanged state unit,
       GOEvent.enableCollision
         (if (go2.goState ≠ GOState.ready ∧
              (state = LootState.activated ∨
               state = LootState.justDeactivated)) ∨
             state = LootState.ready then true else false)] ∧
    (SetGoState go3 gstate).2 =
      [GOEvent.onStateChanged gstate,
       GOEvent.enableCollision (if gstate = GOState.ready then true else false)] ∧
    (SetGoState go3 gstate).1.collisionEnabled =
      (if gstate = GOState.ready then true else false) := by
  refine ⟨⟨?_, ?_⟩, ?_, ?_, ?_⟩
  · unfold SetLootState
    simp [hdoor]
  · unfold SetLootState
    simp [hdoor]
  · unfold SetLootState EnableCollision
    simp [hnotdoor, hmodel]
  · simp only [isTransportGO, decide_eq_false_iff_not] at htrans
    unfold SetGoState EnableCollision
    simp [isTransportGO, hmodel3, htrans, hworld]
  · simp only [isTransportGO, decide_eq_false_iff_not] at htrans
    unfold SetGoState EnableCollision
    simp [isTransportGO, hmodel3, htrans, hworld]

/-- Claim C5, witness for the amended theorem at a concrete door, button and
chest. -/
theorem collision_door_exempt_in_setLootState_witness :
    ({ buttonInstance with goType := GameobjectTypes.door } : GameObject).goType =
      GameobjectTypes.door ∧
    buttonInstance.goType ≠ GameobjectTypes.door ∧
    buttonInstance.hasModel = true ∧
    isTransportGO buttonInstance = false ∧
    buttonInstance.isInWorld = true ∧
    (((SetLootState { buttonInstance with goType := GameobjectTypes.door }
        LootState.ready none).2 =
        [GOEvent.onLootStateChanged LootState.ready none] ∧
      (SetLootState { buttonInstance with goType := GameobjectTypes.door }
        LootState.ready none).1.collisionEnabled =
        ({ buttonInstance with goType := GameobjectTypes.door } :
          GameObject).collisionEnabled) ∧
     (SetLootState buttonInstance LootState.ready none).2 =
       [GOEvent.onLootStateChanged LootState.ready none,
        GOEvent.enableCollision
          (if (buttonInstance.goState ≠ GOState.ready ∧
               (LootState.ready = LootState.activated ∨
                LootState.ready = LootState.justDeactivated)) ∨
              (LootState.ready : LootState) = LootState.ready
           then true else false)] ∧
     (SetGoState buttonInstance GOState.ready).2 =
       [GOEvent.onStateChanged GOState.ready,
        GOEvent.enableCollision
          (if (GOState.ready : GOState) = GOState.ready then true else false)] ∧
     (SetGoState buttonInstance GOState.ready).1.collisionEnabled =
       (if (GOState.ready : GOState) = GOState.ready then true else false)) :=
  ⟨rfl, by decide, rfl, by decide, rfl,
   collision_door_exempt_in_setLootState
     { buttonInstance with goType := GameobjectTypes.door }
     LootState.ready none GOState.ready rfl
     buttonInstance (by decide) rfl
     buttonInstance rfl (by decide) rfl⟩

/-- Claim C7: with a boundary configured, `IsInBoundary` returns the
conjunction of all area-boundary predicates XOR'd with the negate flag; with
no boundary configured it returns true for every point whatever the negate
flag is, and `VisualizeBoundary` then returns the not-bounded status. -/
theorem isInBoundary_semantics_and_notBounded
    (ai : BoundaryAIState) (b : CreatureBoundary) (p : Position)
    (duration : Nat) (ownerPos : Position) (fill : Bool) :
    (ai.boundary = some b →
      IsInBoundary ai (some p) =
        ((b.all fun areaBoundary => areaBoundary p) != ai.negateBoundary) ∧
      (IsInBounds b p = true ↔ ∀ areaBoundary ∈ b, areaBoundary p = true)) ∧
    (ai.boundary = none →
      IsInBoundary ai (some p) = true ∧
      (VisualizeBoundary ai duration (some ownerPos) fill).status =
        LANG_CREATURE_MOVEMENT_NOT_BOUNDED ∧
      fillMarkers (VisualizeBoundary ai duration (some ownerPos) fill) = []) := by
  constructor
  · intro hb
    constructor
    · unfold IsInBoundary IsInBounds
      rw [hb]
      rfl
    · unfold IsInBounds
      simp [List.all_eq_true]
  · intro hb
    refine ⟨?_, ?_, ?_⟩
    · unfold IsInBoundary
      rw [hb]
    · unfold VisualizeBoundary
      rw [hb]
    · unfold VisualizeBoundary
      rw [hb]
      rfl

/-- A small concrete boundary: inside iff both coordinates lie in [-3, 3]. -/
def squareBoundary : CreatureBoundary :=
  [fun p => decide (-3 ≤ p.1 ∧ p.1 ≤ 3), fun p => decide (-3 ≤ p.2 ∧ p.2 ≤ 3)]

/-- Concrete AI state carrying `squareBoundary`, not negated; the creature
stands outside the boundary, its home farther outside. -/
def squareAI : BoundaryAIState :=
  { boundary := some squareBoundary, negateBoundary := false,
    mePosition := (50, 50), meHomePosition := (60, 60) }

/-- Concrete AI state with no boundary configured. -/
def unboundedAI : BoundaryAIState :=
  { boundary := none, negateBoundary := true,
    mePosition := (0, 0), meHomePosition := (0, 0) }

/-- Claim C7, witness: instantiates the semantics theorem at the concrete
square boundary (boundary-present half) and at the boundary-less AI state
(not-bounded half). -/
theorem isInBoundary_semantics_and_notBounded_witness :
    squareAI.boundary = some squareBoundary ∧
    unboundedAI.boundary = none ∧
    (IsInBoundary squareAI (some (2, 2)) =
      ((squareBoundary.all fun areaBoundary => areaBoundary (2, 2)) !=
        squareAI.negateBoundary) ∧
     (IsInBounds squareBoundary (2, 2) = true ↔
       ∀ areaBoundary ∈ squareBoundary, areaBoundary (2, 2) = true)) ∧
    (IsInBoundary unboundedAI (some (2, 2)) = true ∧
     (VisualizeBoundary unboundedAI 5 (some (7, 7)) true).status =
       LANG_CREATURE_MOVEMENT_NOT_BOUNDED ∧
     fillMarkers (VisualizeBoundary unboundedAI 5 (some (7, 7)) true) = []) :=
  ⟨rfl, rfl,
   (isInBoundary_semantics_and_notBounded squareAI squareBoundary (2, 2)
      5 (7, 7) true).1 rfl,
   (isInBoundary_semantics_and_notBounded unboundedAI squareBoundary (2, 2)
      5 (7, 7) true).2 rfl⟩

/-- Claim C6: with a boundary configured, `VisualizeBoundary` seeds the fill
from the first position of the fallback chain — requesting actor's position,
then the owning creature's position, then the creature's home position —
that satisfies the containment test, and when none of the three is inside it
returns the no-interior-point-found diagnostic without performing any fill
(no cell visited, no marker spawned). -/
theorem visualizeBoundary_seed_fallback
    (ai : BoundaryAIState) (b : CreatureBoundary) (duration : Nat)
    (ownerPos : Position) (fill : Bool)
    (hb : ai.boundary = some b) (hne : b ≠ []) :
    (VisualizeBoundary ai duration (some ownerPos) fill).seedPosition =
      ([ownerPos, ai.mePosition, ai.meHomePosition].find?
        fun p => IsInBoundary ai (some p)) ∧
    (([ownerPos, ai.mePosition, ai.meHomePosition].find?
        fun p => IsInBoundary ai (some p)) = none →
      (VisualizeBoundary ai duration (some ownerPos) fill).status =
        LANG_CREATURE_NO_INTERIOR_POINT_FOUND ∧
      (VisualizeBoundary ai duration (some ownerPos) fill).outcome =
        FillOutcome.notRun ∧
      fillMarkers (VisualizeBoundary ai duration (some ownerPos) fill) = [] ∧
      visitedCells (VisualizeBoundary ai duration (some ownerPos) fill) = ∅) := by
  have hempty : b.isEmpty = false := by
    cases b with
    | nil => exact absurd rfl hne
    | cons x xs => rfl
  unfold VisualizeBoundary
  rw [hb]
  simp only [hempty, Bool.false_eq_true, if_false]
  by_cases h1 : IsInBoundary ai (some ownerPos)
  · refine ⟨?_, ?_⟩
    · simp [h1, List.find?]
      try (split <;> rfl)
    · intro hnone
      simp [List.find?, h1] at hnone
  · by_cases h2 : IsInBoundary ai (some ai.mePosition)
    · refine ⟨?_, ?_⟩
      · simp [h1, h2, List.find?]
        try (split <;> rfl)
      · intro hnone
        simp [List.find?, h1, h2] at hnone
    · by_cases h3 : IsInBoundary ai (some ai.meHomePosition)
      · refine ⟨?_, ?_⟩
        · simp [h1, h2, h3, List.find?]
          try (split <;> rfl)
        · intro hnone
          simp [List.find?, h1, h2, h3] at hnone
      · refine ⟨?_, ?_⟩
        · simp [h1, h2, h3, List.find?]
        · intro hnone
          simp [h1, h2, h3, fillMarkers, visitedCells]

/-- Concrete AI state whose owner position will be inside the square
boundary while the creature and home positions are outside. -/
theorem visualizeBoundary_seed_fallback_witness :
    squareAI.boundary = some squareBoundary ∧
    squareBoundary ≠ [] ∧
    ((VisualizeBoundary squareAI 5 (some (1, 2)) false).seedPosition =
      ([(1, 2), squareAI.mePosition, squareAI.meHomePosition].find?
        fun p => IsInBoundary squareAI (some p)) ∧
     (([(1, 2), squareAI.mePosition, squareAI.meHomePosition].find?
        fun p => IsInBoundary squareAI (some p)) = none →
      (VisualizeBoundary squareAI 5 (some (1, 2)) false).status =
        LANG_CREATURE_NO_INTERIOR_POINT_FOUND ∧
      (VisualizeBoundary squareAI 5 (some (1, 2)) false).outcome =
        FillOutcome.notRun ∧
      fillMarkers (VisualizeBoundary squareAI 5 (some (1, 2)) false) = [] ∧
      visitedCells (VisualizeBoundary squareAI 5 (some (1, 2)) false) = ∅)) :=
  ⟨rfl, by simp [squareBoundary],
   visualizeBoundary_seed_fallback squareAI squareBoundary 5 (1, 2) false
     rfl (by simp [squareBoundary])⟩

/-- Helper: a compatibility-mode, default-spawned instance in Ready
loot-state with a pending respawn timer is not `isSpawned`, so the
trap/charge section of the `GO_READY` tick does not run on it. -/
theorem isSpawned_false_of_pending (go : GameObject)
    (hsbd : go.spawnedByDefault = true) (hdelay : go.respawnDelayTime ≠ 0)
    (hpending : 0 < go.respawnTime) : isSpawned go = false := by
  simp only [isSpawned, hsbd, decide_eq_false_iff_not]
  intro h
  rcases h with h | h | h
  · exact hdelay h
  · simp at h
  · omega

/-- Helper: one `GO_READY` tick of a compatibility-mode, default-spawned,
Ready instance with a pending respawn timer whose linked-respawn record
points to itself preserves the pending state, never re-adds the instance to
the simulation, and on expiry reschedules the respawn a week ahead. -/
theorem updateGoReady_selfLinked_step (env : GOEnv) (go : GameObject)
    (hcompat : go.respawnCompatibilityMode = true)
    (hready : go.lootState = LootState.ready)
    (hsbd : go.spawnedByDefault = true)
    (hdelay : go.respawnDelayTime ≠ 0)
    (hpending : 0 < go.respawnTime)
    (hguid : env.linkedRespawnGuid = go.guid)
    (hlink : env.linkedRespawnTime ≠ 0) :
    (updateGoReady env go).1.respawnCompatibilityMode = true ∧
    (updateGoReady env go).1.lootState = LootState.ready ∧
    (updateGoReady env go).1.spawnedByDefault = true ∧
    (updateGoReady env go).1.respawnDelayTime ≠ 0 ∧
    0 < (updateGoReady env go).1.respawnTime ∧
    (updateGoReady env go).1.guid = go.guid ∧
    GOEvent.addToMap ∉ (updateGoReady env go).2 ∧
    GOEvent.updatePool ∉ (updateGoReady env go).2 ∧
    (go.respawnTime ≤ env.now →
      (updateGoReady env go).1.respawnTime = env.now + 604800) := by
  by_cases hexp : go.respawnTime ≤ env.now
  · have hweek : ((604800 : Int) > 0) = True := by norm_num
    unfold updateGoReady SetRespawnTime SaveRespawnTime WEEK
    simp only [hcompat, hpending, hexp, hlink, hguid, hsbd, hready,
      if_true, if_pos, and_true, true_and, ne_eq, not_false_eq_true,
      not_true_eq_false, if_false]
    norm_num
    refine ⟨?_, ?_, ?_⟩ <;> simp
  · unfold updateGoReady updateGoReadyTail
    have hsp := isSpawned_false_of_pending go hsbd hdelay hpending
    simp [hcompat, hexp, hsp, hready, hsbd, hdelay, hpending]

/-- Helper: the pending self-linked state is invariant under any number of
`GO_READY` ticks, and the whole trace never re-adds the instance to the
simulation. -/
theorem runReadyTicks_selfLinked_inv (envs : List GOEnv) :
    ∀ go : GameObject,
    go.respawnCompatibilityMode = true → go.lootState = LootState.ready →
    go.spawnedByDefault = true → go.respawnDelayTime ≠ 0 →
    0 < go.respawnTime →
    (∀ env ∈ envs, env.linkedRespawnGuid = go.guid ∧
      env.linkedRespawnTime ≠ 0) →
    ((runReadyTicks envs go).1.respawnCompatibilityMode = true ∧
     (runReadyTicks envs go).1.lootState = LootState.ready ∧
     (runReadyTicks envs go).1.spawnedByDefault = true ∧
     (runReadyTicks envs go).1.respawnDelayTime ≠ 0 ∧
     0 < (runReadyTicks envs go).1.respawnTime ∧
     (runReadyTicks envs go).1.guid = go.guid ∧
     GOEvent.addToMap ∉ (runReadyTicks envs go).2 ∧
     GOEvent.updatePool ∉ (runReadyTicks envs go).2) := by
  induction envs with
  | nil =>
    intro go h1 h2 h3 h4 h5 _
    exact ⟨h1, h2, h3, h4, h5, rfl, by simp [runReadyTicks],
      by simp [runReadyTicks]⟩
  | cons env rest ih =>
    intro go h1 h2 h3 h4 h5 hall
    obtain ⟨hg, hl⟩ := hall env (List.mem_cons_self env rest)
    have hstep := updateGoReady_selfLinked_step env go h1 h2 h3 h4 h5 hg hl
    obtain ⟨s1, s2, s3, s4, s5, s6, s7, s8, _⟩ := hstep
    have hall1 : ∀ e ∈ rest, e.linkedRespawnGuid = (updateGoReady env go).1.guid ∧
        e.linkedRespawnTime ≠ 0 := by
      intro e he
      obtain ⟨hg1, hl1⟩ := hall e (List.mem_cons_of_mem env he)
      exact ⟨by rw [s6, hg1], hl1⟩
    have ihr := ih (updateGoReady env go).1 s1 s2 s3 s4 s5 hall1
    obtain ⟨t1, t2, t3, t4, t5, t6, t7, t8⟩ := ihr
    simp only [runReadyTicks]
    refine ⟨t1, t2, t3, t4, t5, by rw [t6, s6], ?_, ?_⟩
    · simp only [List.mem_append]
      intro h
      rcases h with h | h
      · exact s7 h
      · exact t7 h
    · simp only [List.mem_append]
      intro h
      rcases h with h | h
      · exact s8 h
      · exact t8 h

/-- Claim C3: a compatibility-mode instance in Ready loot-state with a
pending respawn timer whose linked-respawn record points to itself never
re-adds itself to the simulation (no `AddToMap`, no pool update) for any
sequence of update ticks, staying Ready with a pending timer; each expiry
instead reschedules its respawn time a week into the future.  The map's
linked-respawn answers are environment inputs, nonzero while the
self-linked record is pending. -/
theorem selfLinked_instance_never_respawns
    (envs : List GOEnv) (go : GameObject)
    (hcompat : go.respawnCompatibilityMode = true)
    (hready : go.lootState = LootState.ready)
    (hsbd : go.spawnedByDefault = true)
    (hdelay : go.respawnDelayTime ≠ 0)
    (hpending : 0 < go.respawnTime)
    (henvs : ∀ env ∈ envs, env.linkedRespawnGuid = go.guid ∧
      env.linkedRespawnTime ≠ 0) :
    ((runReadyTicks envs go).1.lootState = LootState.ready ∧
     0 < (runReadyTicks envs go).1.respawnTime ∧
     GOEvent.addToMap ∉ (runReadyTicks envs go).2 ∧
     GOEvent.updatePool ∉ (runReadyTicks envs go).2) ∧
    (∀ env : GOEnv, env.linkedRespawnGuid = go.guid →
      env.linkedRespawnTime ≠ 0 → go.respawnTime ≤ env.now →
      (updateGoReady env go).1.respawnTime = env.now + 604800 ∧
      env.now < (updateGoReady env go).1.respawnTime) := by
  have hinv := runReadyTicks_selfLinked_inv envs go hcompat hready hsbd hdelay
    hpending henvs
  refine ⟨⟨hinv.2.1, hinv.2.2.2.2.1, hinv.2.2.2.2.2.2.1,
    hinv.2.2.2.2.2.2.2⟩, ?_⟩
  intro env hg hl hexp
  have hstep := updateGoReady_selfLinked_step env go hcompat hready hsbd
    hdelay hpending hg hl
  have heq := hstep.2.2.2.2.2.2.2.2 hexp
  exact ⟨heq, by omega⟩

/-- Environment of a tick whose linked-respawn lookup reports the instance
itself (guid 21) as still dead. -/
def selfLinkEnv : GOEnv :=
  { now := 1000, nowMS := 1000000, linkedRespawnTime := 900,
    linkedRespawnGuid := 21, respawnJitter := 10, poolId := 0,
    hasLinkedTrap := false, hasGoOverride := false,
    overrideFlagsNoDespawn := false, dynamicRespawnScalingMode := 0,
    scaledRespawnDelay := fun d => d, saveRespawnTimeImmediately := false,
    trapTarget := none, ownerIsPlayer := false, fishingHoleRestock := 3 }

/-- A compatibility-mode, default-spawned instance (guid 21) in Ready
loot-state with a pending respawn timer that expires at `selfLinkEnv.now`. -/
def selfLinkedPendingGO : GameObject :=
  { buttonInstance with
      goType := GameobjectTypes.generic
      lootState := LootState.ready
      respawnTime := 900
      respawnDelayTime := 100 }

/-- Claim C3, witness: two expiring ticks of the self-linked instance keep
it Ready and pending, re-add nothing, and the first expiry reschedules a
week ahead. -/
theorem selfLinked_instance_never_respawns_witness :
    selfLinkedPendingGO.respawnCompatibilityMode = true ∧
    selfLinkedPendingGO.lootState = LootState.ready ∧
    selfLinkedPendingGO.spawnedByDefault = true ∧
    selfLinkedPendingGO.respawnDelayTime ≠ 0 ∧
    0 < selfLinkedPendingGO.respawnTime ∧
    (∀ env ∈ [selfLinkEnv, selfLinkEnv],
      env.linkedRespawnGuid = selfLinkedPendingGO.guid ∧
      env.linkedRespawnTime ≠ 0) ∧
    (((runReadyTicks [selfLinkEnv, selfLinkEnv] selfLinkedPendingGO).1.lootState =
        LootState.ready ∧
      0 < (runReadyTicks [selfLinkEnv, selfLinkEnv] selfLinkedPendingGO).1.respawnTime ∧
      GOEvent.addToMap ∉ (runReadyTicks [selfLinkEnv, selfLinkEnv] selfLinkedPendingGO).2 ∧
      GOEvent.updatePool ∉ (runReadyTicks [selfLinkEnv, selfLinkEnv] selfLinkedPendingGO).2) ∧
     (∀ env : GOEnv, env.linkedRespawnGuid = selfLinkedPendingGO.guid →
       env.linkedRespawnTime ≠ 0 → selfLinkedPendingGO.respawnTime ≤ env.now →
       (updateGoReady env selfLinkedPendingGO).1.respawnTime = env.now + 604800 ∧
       env.now < (updateGoReady env selfLinkedPendingGO).1.respawnTime)) := by
  refine ⟨rfl, rfl, rfl, by decide, by decide, ?_, ?_⟩
  · intro env henv
    have he : env = selfLinkEnv := by
      simp only [List.mem_cons, List.not_mem_nil, or_false] at henv
      rcases henv with h | h <;> exact h
    subst he
    exact ⟨rfl, by decide⟩
  · exact selfLinked_instance_never_respawns [selfLinkEnv, selfLinkEnv]
      selfLinkedPendingGO rfl rfl rfl (by decide) (by decide)
      (by
        intro env henv
        have he : env = selfLinkEnv := by
          simp only [List.mem_cons, List.not_mem_nil, or_false] at henv
          rcases henv with h | h <;> exact h
        subst he
        exact ⟨rfl, by decide⟩)

/-- Helper: the `GO_READY` tick of a compatibility-mode, Ready,
not-spawned-by-default instance whose respawn timer expired (and whose
linked-respawn lookup is empty) transitions it to JustDeactivated with the
respawn timer cleared, re-adding nothing. -/
theorem updateGoReady_unspawned_expiry (env : GOEnv) (go : GameObject)
    (hcompat : go.respawnCompatibilityMode = true)
    (hready : go.lootState = LootState.ready)
    (hsbd : go.spawnedByDefault = false)
    (hpending : 0 < go.respawnTime)
    (hexp : go.respawnTime ≤ env.now)
    (hnolink : env.linkedRespawnTime = 0) :
    (updateGoReady env go).1.lootState = LootState.justDeactivated ∧
    (updateGoReady env go).1.respawnTime = 0 ∧
    (updateGoReady env go).1.respawnDelayTime = go.respawnDelayTime ∧
    (updateGoReady env go).1.spawnedByDefault = false ∧
    (updateGoReady env go).1.spellId = go.spellId ∧
    (updateGoReady env go).1.ownerGUID = go.ownerGUID ∧
    (updateGoReady env go).1.goType = go.goType ∧
    (updateGoReady env go).1.spawnId = go.spawnId ∧
    GOEvent.addToMap ∉ (updateGoReady env go).2 ∧
    GOEvent.updatePool ∉ (updateGoReady env go).2 := by
  unfold updateGoReady
  simp only [hcompat, hpending, hexp, hnolink, hsbd, true_and, and_true,
    ne_eq, not_true_eq_false, if_false, ite_true, ite_false,
    not_false_eq_true, and_self, if_true]
  cases hgt : go.goType <;>
    simp_all [ResetDoorOrButton, SetLootState, SetGoState, EnableCollision,
      hready, hsbd] <;>
    split <;>
    simp_all [SetLootState, EnableCollision]

/-- An event that schedules or performs a respawn: persisting a pending
respawn time, re-adding to the map, or updating the spawn pool. -/
def isRespawnSchedulingEvent (e : GOEvent) : Bool :=
  match e with
  | GOEvent.saveRespawnTimeDB => true
  | GOEvent.saveRespawnTimeMapMemory _ => true
  | GOEvent.addToMap => true
  | GOEvent.updatePool => true
  | _ => false

/-- Helper: `SetLootState` only fires the AI hook and a collision toggle;
it schedules no respawn. -/
theorem setLootState_events_not_scheduling (go : GameObject)
    (s : LootState) (u : Option Nat) :
    ∀ e ∈ (SetLootState go s u).2, isRespawnSchedulingEvent e = false := by
  intro e he
  unfold SetLootState EnableCollision at he
  dsimp only at he
  split at he
  · simp at he
    subst he
    rfl
  · split at he
    · simp at he
      rcases he with h | h <;> subst h <;> rfl
    · simp at he
      subst he
      rfl

/-- Helper: `SetGoState` only fires the AI hook and a collision toggle; it
schedules no respawn. -/
theorem setGoState_events_not_scheduling (go : GameObject) (s : GOState) :
    ∀ e ∈ (SetGoState go s).2, isRespawnSchedulingEvent e = false := by
  intro e he
  unfold SetGoState EnableCollision at he
  dsimp only at he
  split at he
  · split at he
    · simp at he
      subst he
      rfl
    · simp at he
      rcases he with h | h <;> subst h <;> rfl
  · simp at he
    subst he
    rfl

/-- Helper: `SetLootState` changes only the loot-state, interacting-unit and
collision fields. -/
theorem setLootState_preserves (go : GameObject) (s : LootState)
    (u : Option Nat) :
    (SetLootState go s u).1.respawnTime = go.respawnTime ∧
    (SetLootState go s u).1.respawnDelayTime = go.respawnDelayTime ∧
    (SetLootState go s u).1.spawnedByDefault = go.spawnedByDefault ∧
    (SetLootState go s u).1.respawnCompatibilityMode =
      go.respawnCompatibilityMode ∧
    (SetLootState go s u).1.spawnId = go.spawnId ∧
    (SetLootState go s u).1.spellId = go.spellId ∧
    (SetLootState go s u).1.ownerGUID = go.ownerGUID ∧
    (SetLootState go s u).1.goType = go.goType ∧
    (SetLootState go s u).1.despawnAtAction = go.despawnAtAction ∧
    (SetLootState go s u).1.goAnimProgress = go.goAnimProgress ∧
    (SetLootState go s u).1.lootState = s := by
  unfold SetLootState EnableCollision
  dsimp only
  split
  · simp
  · split <;> simp

/-- Helper: `SetGoState` changes only the go-state and collision fields. -/
theorem setGoState_preserves (go : GameObject) (s : GOState) :
    (SetGoState go s).1.respawnTime = go.respawnTime ∧
    (SetGoState go s).1.respawnDelayTime = go.respawnDelayTime ∧
    (SetGoState go s).1.spawnedByDefault = go.spawnedByDefault ∧
    (SetGoState go s).1.respawnCompatibilityMode =
      go.respawnCompatibilityMode ∧
    (SetGoState go s).1.spawnId = go.spawnId ∧
    (SetGoState go s).1.spellId = go.spellId ∧
    (SetGoState go s).1.ownerGUID = go.ownerGUID ∧
    (SetGoState go s).1.goType = go.goType ∧
    (SetGoState go s).1.despawnAtAction = go.despawnAtAction ∧
    (SetGoState go s).1.goAnimProgress = go.goAnimProgress ∧
    (SetGoState go s).1.lootState = go.lootState := by
  unfold SetGoState EnableCollision
  dsimp only
  split
  · split <;> simp
  · simp

/-- Helper: deleting a spawn-record-less instance ends in
`AddObjectToRemoveList`, keeps its respawn timer value, and schedules no
respawn. -/
theorem deleteGO_removed (env : GOEnv) (go : GameObject)
    (hsid : go.spawnId = 0) :
    (DeleteGO env go).1.respawnTime = go.respawnTime ∧
    GOEvent.addObjectToRemoveList ∈ (DeleteGO env go).2 ∧
    ∀ e ∈ (DeleteGO env go).2, isRespawnSchedulingEvent e = false := by
  have hL := setLootState_preserves go LootState.notReady none
  have hG := setGoState_preserves (SetLootState go LootState.notReady none).1
    GOState.ready
  have hsid2 : (SetGoState (SetLootState go LootState.notReady none).1
      GOState.ready).1.spawnId = 0 := by
    rw [hG.2.2.2.2.1, hL.2.2.2.2.1, hsid]
  unfold DeleteGO
  refine ⟨?_, ?_, ?_⟩
  · rw [hG.1, hL.1]
  · simp [hsid2]
  · intro e he
    simp only [List.mem_append, List.mem_cons, List.not_mem_nil, or_false,
      List.mem_singleton] at he
    rcases he with ((((h | h) | h) | h) | h) | h
    · split at h
      · simp at h
        subst h
        rfl
      · simp at h
    · exact setLootState_events_not_scheduling go LootState.notReady none e h
    · rcases h with h | h <;> subst h <;> rfl
    · exact setGoState_events_not_scheduling _ GOState.ready e h
    · split at h
      · simp at h
        subst h
        rfl
      · simp at h
    · simp only [hsid2, ne_eq, not_true_eq_false, false_and, if_false] at h
      simp at h
      subst h
      rfl

@[simp]
theorem setLootState_fst_respawnTime (go : GameObject) (s : LootState)
    (u : Option Nat) : (SetLootState go s u).1.respawnTime = go.respawnTime :=
  (setLootState_preserves go s u).1

@[simp]
theorem setLootState_fst_respawnDelayTime (go : GameObject) (s : LootState)
    (u : Option Nat) :
    (SetLootState go s u).1.respawnDelayTime = go.respawnDelayTime :=
  (setLootState_preserves go s u).2.1

@[simp]
theorem setLootState_fst_spawnedByDefault (go : GameObject) (s : LootState)
    (u : Option Nat) :
    (SetLootState go s u).1.spawnedByDefault = go.spawnedByDefault :=
  (setLootState_preserves go s u).2.2.1

@[simp]
theorem setLootState_fst_respawnCompatibilityMode (go : GameObject)
    (s : LootState) (u : Option Nat) :
    (SetLootState go s u).1.respawnCompatibilityMode =
      go.respawnCompatibilityMode :=
  (setLootState_preserves go s u).2.2.2.1

@[simp]
theorem setLootState_fst_spawnId (go : GameObject) (s : LootState)
    (u : Option Nat) : (SetLootState go s u).1.spawnId = go.spawnId :=
  (setLootState_preserves go s u).2.2.2.2.1

@[simp]
theorem setLootState_fst_spellId (go : GameObject) (s : LootState)
    (u : Option Nat) : (SetLootState go s u).1.spellId = go.spellId :=
  (setLootState_preserves go s u).2.2.2.2.2.1

@[simp]
theorem setLootState_fst_ownerGUID (go : GameObject) (s : LootState)
    (u : Option Nat) : (SetLootState go s u).1.ownerGUID = go.ownerGUID :=
  (setLootState_preserves go s u).2.2.2.2.2.2.1

@[simp]
theorem setLootState_fst_goType (go : GameObject) (s : LootState)
    (u : Option Nat) : (SetLootState go s u).1.goType = go.goType :=
  (setLootState_preserves go s u).2.2.2.2.2.2.2.1

@[simp]
theorem setLootState_fst_despawnAtAction (go : GameObject) (s : LootState)
    (u : Option Nat) :
    (SetLootState go s u).1.despawnAtAction = go.despawnAtAction :=
  (setLootState_preserves go s u).2.2.2.2.2.2.2.2.1

@[simp]
theorem setLootState_fst_goAnimProgress (go : GameObject) (s : LootState)
    (u : Option Nat) :
    (SetLootState go s u).1.goAnimProgress = go.goAnimProgress :=
  (setLootState_preserves go s u).2.2.2.2.2.2.2.2.2.1

@[simp]
theorem setLootState_fst_lootState (go : GameObject) (s : LootState)
    (u : Option Nat) : (SetLootState go s u).1.lootState = s :=
  (setLootState_preserves go s u).2.2.2.2.2.2.2.2.2.2

@[simp]
theorem setGoState_fst_respawnTime (go : GameObject) (s : GOState) :
    (SetGoState go s).1.respawnTime = go.respawnTime :=
  (setGoState_preserves go s).1

@[simp]
theorem setGoState_fst_respawnDelayTime (go : GameObject) (s : GOState) :
    (SetGoState go s).1.respawnDelayTime = go.respawnDelayTime :=
  (setGoState_preserves go s).2.1

@[simp]
theorem setGoState_fst_spawnedByDefault (go : GameObject) (s : GOState) :
    (SetGoState go s).1.spawnedByDefault = go.spawnedByDefault :=
  (setGoState_preserves go s).2.2.1

@[simp]
theorem setGoState_fst_respawnCompatibilityMode (go : GameObject)
    (s : GOState) :
    (SetGoState go s).1.respawnCompatibilityMode =
      go.respawnCompatibilityMode :=
  (setGoState_preserves go s).2.2.2.1

@[simp]
theorem setGoState_fst_spawnId (go : GameObject) (s : GOState) :
    (SetGoState go s).1.spawnId = go.spawnId :=
  (setGoState_preserves go s).2.2.2.2.1

@[simp]
theorem setGoState_fst_spellId (go : GameObject) (s : GOState) :
    (SetGoState go s).1.spellId = go.spellId :=
  (setGoState_preserves go s).2.2.2.2.2.1

@[simp]
theorem setGoState_fst_ownerGUID (go : GameObject) (s : GOState) :
    (SetGoState go s).1.ownerGUID = go.ownerGUID :=
  (setGoState_preserves go s).2.2.2.2.2.2.1

@[simp]
theorem setGoState_fst_goType (go : GameObject) (s : GOState) :
    (SetGoState go s).1.goType = go.goType :=
  (setGoState_preserves go s).2.2.2.2.2.2.2.1

@[simp]
theorem setGoState_fst_despawnAtAction (go : GameObject) (s : GOState) :
    (SetGoState go s).1.despawnAtAction = go.despawnAtAction :=
  (setGoState_preserves go s).2.2.2.2.2.2.2.2.1

@[simp]
theorem setGoState_fst_goAnimProgress (go : GameObject) (s : GOState) :
    (SetGoState go s).1.goAnimProgress = go.goAnimProgress :=
  (setGoState_preserves go s).2.2.2.2.2.2.2.2.2.1

/-- Helper: appending two respawn-free traces yields a respawn-free trace. -/
theorem benign_append {l1 l2 : List GOEvent}
    (h1 : ∀ e ∈ l1, isRespawnSchedulingEvent e = false)
    (h2 : ∀ e ∈ l2, isRespawnSchedulingEvent e = false) :
    ∀ e ∈ l1 ++ l2, isRespawnSchedulingEvent e = false := by
  intro e he
  rcases List.mem_append.mp he with h | h
  · exact h1 e h
  · exact h2 e h

/-- Helper: a conditional between two respawn-free traces is respawn-free. -/
theorem benign_ite {c : Prop} [Decidable c] {l1 l2 : List GOEvent}
    (h1 : ∀ e ∈ l1, isRespawnSchedulingEvent e = false)
    (h2 : ∀ e ∈ l2, isRespawnSchedulingEvent e = false) :
    ∀ e ∈ (if c then l1 else l2), isRespawnSchedulingEvent e = false := by
  split
  · exact h1
  · exact h2

/-- Helper: the empty trace is respawn-free. -/
theorem benign_nil :
    ∀ e ∈ ([] : List GOEvent), isRespawnSchedulingEvent e = false := by
  intro e he
  exact absurd he (List.not_mem_nil e)

/-- Helper: prepending a non-scheduling event keeps a trace respawn-free. -/
theorem benign_cons {x : GOEvent} {l : List GOEvent}
    (hx : isRespawnSchedulingEvent x = false)
    (hl : ∀ e ∈ l, isRespawnSchedulingEvent e = false) :
    ∀ e ∈ x :: l, isRespawnSchedulingEvent e = false := by
  intro e he
  rcases List.mem_cons.mp he with h | h
  · subst h
    exact hx
  · exact hl e h

/-- Helper: goober consumption casts schedule no respawn. -/
theorem benign_gooberCasts (users : List Nat) :
    ∀ e ∈ users.map GOEvent.castGooberSpell,
      isRespawnSchedulingEvent e = false := by
  intro e he
  obtain ⟨p, _, hp⟩ := List.mem_map.mp he
  subst hp
  rfl

/-- Helper: the goober consumption step preserves the respawn bookkeeping
fields, schedules no respawn, and cannot force an early return when the
no-despawn override flag is off. -/
theorem gooberConsumption_inv (env : GOEnv) (go : GameObject) :
    (gooberConsumption env go).1.respawnTime = go.respawnTime ∧
    (gooberConsumption env go).1.respawnDelayTime = go.respawnDelayTime ∧
    (gooberConsumption env go).1.spawnedByDefault = go.spawnedByDefault ∧
    (gooberConsumption env go).1.spawnId = go.spawnId ∧
    (gooberConsumption env go).1.spellId = go.spellId ∧
    (gooberConsumption env go).1.ownerGUID = go.ownerGUID ∧
    (∀ e ∈ (gooberConsumption env go).2.1,
      isRespawnSchedulingEvent e = false) ∧
    (env.overrideFlagsNoDespawn = false →
      (gooberConsumption env go).2.2 = false) := by
  unfold gooberConsumption
  by_cases hgoob : go.goType = GameobjectTypes.goober <;>
    by_cases hgs : go.gooberSpell = 0 <;>
    simp only [hgoob, hgs, if_true, if_false, ite_true, ite_false, ne_eq,
      not_false_eq_true, not_true_eq_false, Bool.false_eq_true,
      setGoState_fst_respawnTime, setGoState_fst_respawnDelayTime,
      setGoState_fst_spawnedByDefault, setGoState_fst_spawnId,
      setGoState_fst_spellId, setGoState_fst_ownerGUID] <;>
    refine ⟨by simp, by simp, by simp, by simp, by simp, by simp, ?_, ?_⟩
  all_goals
    first
    | (intro hf
       simp [hf])
    | exact benign_nil
    | (refine benign_append ?_ (setGoState_events_not_scheduling _ _)
       first
       | exact benign_gooberCasts _
       | exact benign_nil)

/-- Helper: the final-disposition step of a not-spawned-by-default,
world-spawned (no spell, no owner) instance with a nonzero despawn delay
removes it with its respawn timer cleared and schedules no respawn. -/
theorem goFinalDisposition_removed (env : GOEnv) (go1 : GameObject)
    (hsbd : go1.spawnedByDefault = false)
    (hspell : go1.spellId = 0) (howner : go1.ownerGUID = none)
    (hdelay : go1.respawnDelayTime ≠ 0) :
    (goFinalDisposition env go1).1.respawnTime = 0 ∧
    (GOEvent.destroyForNearbyPlayers ∈ (goFinalDisposition env go1).2 ∨
     GOEvent.addObjectToRemoveList ∈ (goFinalDisposition env go1).2) ∧
    ∀ e ∈ (goFinalDisposition env go1).2,
      isRespawnSchedulingEvent e = false := by
  unfold goFinalDisposition
  by_cases hsid : go1.spawnId = 0 <;>
    simp only [hsid, hspell, howner, hsbd, hdelay, ne_eq,
      setLootState_fst_respawnTime, setLootState_fst_respawnDelayTime,
      setLootState_fst_spawnedByDefault, setLootState_fst_spawnId,
      if_true, if_false, ite_true, ite_false, not_false_eq_true,
      not_true_eq_false, Bool.false_eq_true, Bool.not_false, Bool.not_true,
      or_self, or_false, false_or, and_true, true_and, and_false,
      false_and] <;>
    repeat' apply And.intro
  all_goals
    first
    | (refine ((deleteGO_removed env _ (by simp [hsid])).1).trans ?_
       simp)
    | (left
       simp only [List.mem_append]
       right
       exact List.mem_singleton.mpr rfl)
    | (right
       simp only [List.mem_append]
       right
       exact (deleteGO_removed env _ (by simp [hsid])).2.1)
    | (refine benign_append (benign_append
        (setLootState_events_not_scheduling _ _ _)
        (benign_ite
          (benign_cons rfl (benign_ite (benign_cons rfl benign_nil) benign_nil))
          benign_nil)) ?_
       first
       | exact (deleteGO_removed env _ (by simp [hsid])).2.2
       | exact benign_cons rfl benign_nil)

/-- Helper: the `GO_JUST_DEACTIVATED` tick of a not-spawned-by-default,
world-spawned (no spell, no owner) instance with a nonzero despawn delay
permanently removes it: the respawn timer is cleared, a removal notification
or remove-list insertion is emitted, and no respawn is scheduled or
persisted. -/
theorem updateGoJustDeactivated_unspawned_removed (env : GOEnv)
    (go : GameObject)
    (hsbd : go.spawnedByDefault = false)
    (hspell : go.spellId = 0) (howner : go.ownerGUID = none)
    (hdelay : go.respawnDelayTime ≠ 0)
    (hnoov : env.overrideFlagsNoDespawn = false) :
    (updateGoJustDeactivated env go).1.respawnTime = 0 ∧
    (GOEvent.destroyForNearbyPlayers ∈ (updateGoJustDeactivated env go).2 ∨
     GOEvent.addObjectToRemoveList ∈ (updateGoJustDeactivated env go).2) ∧
    ∀ e ∈ (updateGoJustDeactivated env go).2,
      isRespawnSchedulingEvent e = false := by
  obtain ⟨g1, g2, g3, g4, g5, g6, g7, g8⟩ := gooberConsumption_inv env go
  have hfinal := goFinalDisposition_removed env (gooberConsumption env go).1
    (by rw [g3, hsbd]) (by rw [g5, hspell]) (by rw [g6, howner])
    (by rw [g2]; exact hdelay)
  unfold updateGoJustDeactivated
  simp only [g8 hnoov, Bool.false_eq_true, if_false]
  refine ⟨hfinal.1, ?_, ?_⟩
  · rcases hfinal.2.1 with h | h
    · left
      simp only [List.mem_append]
      right
      exact h
    · right
      simp only [List.mem_append]
      right
      exact h
  · apply benign_append
    · apply benign_append
      · apply benign_ite
        · exact benign_cons rfl benign_nil
        · exact benign_nil
      · exact g7
    · exact hfinal.2.2

/-- Claim C4: a compatibility-mode instance in Ready loot-state that is not
spawned-by-default transitions to JustDeactivated when its respawn timer
expires (linked-respawn lookup empty), and the subsequent JustDeactivated
processing permanently removes it — respawn timer cleared, removal
notification or remove-list insertion emitted — with no respawn scheduled,
persisted or pooled.  The nonzero-despawn-delay and no-goober-override
hypotheses pin the scenario's reachable configuration (LoadFromDB gives
every not-spawned-by-default instance a positive delay, GameObject.cpp
lines 1218-1229). -/
theorem ready_unspawned_expiry_removed
    (env1 env2 : GOEnv) (go : GameObject)
    (hcompat : go.respawnCompatibilityMode = true)
    (hready : go.lootState = LootState.ready)
    (hsbd : go.spawnedByDefault = false)
    (hpending : 0 < go.respawnTime)
    (hexp : go.respawnTime ≤ env1.now)
    (hnolink : env1.linkedRespawnTime = 0)
    (hdelay : go.respawnDelayTime ≠ 0)
    (hspell : go.spellId = 0) (howner : go.ownerGUID = none)
    (hnoov : env2.overrideFlagsNoDespawn = false) :
    (updateGoReady env1 go).1.lootState = LootState.justDeactivated ∧
    GOEvent.addToMap ∉ (updateGoReady env1 go).2 ∧
    GOEvent.updatePool ∉ (updateGoReady env1 go).2 ∧
    (updateGoJustDeactivated env2 (updateGoReady env1 go).1).1.respawnTime = 0 ∧
    (GOEvent.destroyForNearbyPlayers ∈
       (updateGoJustDeactivated env2 (updateGoReady env1 go).1).2 ∨
     GOEvent.addObjectToRemoveList ∈
       (updateGoJustDeactivated env2 (updateGoReady env1 go).1).2) ∧
    GOEvent.saveRespawnTimeDB ∉
      (updateGoJustDeactivated env2 (updateGoReady env1 go).1).2 ∧
    (∀ b : Bool, GOEvent.saveRespawnTimeMapMemory b ∉
      (updateGoJustDeactivated env2 (updateGoReady env1 go).1).2) ∧
    GOEvent.addToMap ∉
      (updateGoJustDeactivated env2 (updateGoReady env1 go).1).2 ∧
    GOEvent.updatePool ∉
      (updateGoJustDeactivated env2 (updateGoReady env1 go).1).2 := by
  obtain ⟨p1, p2, p3, p4, p5, p6, p7, p8, p9, p10⟩ :=
    updateGoReady_unspawned_expiry env1 go hcompat hready hsbd hpending
      hexp hnolink
  obtain ⟨q1, q2, q3⟩ :=
    updateGoJustDeactivated_unspawned_removed env2 (updateGoReady env1 go).1
      p4 (by rw [p5, hspell]) (by rw [p6, howner]) (by rw [p3]; exact hdelay)
      hnoov
  refine ⟨p1, p9, p10, q1, q2, ?_, ?_, ?_, ?_⟩
  · intro h
    have hb := q3 _ h
    exact absurd hb (by simp [isRespawnSchedulingEvent])
  · intro b h
    have hb := q3 _ h
    exact absurd hb (by simp [isRespawnSchedulingEvent])
  · intro h
    have hb := q3 _ h
    exact absurd hb (by simp [isRespawnSchedulingEvent])
  · intro h
    have hb := q3 _ h
    exact absurd hb (by simp [isRespawnSchedulingEvent])

/-- Environment with no linked-respawn record for the updating instance. -/
def noLinkEnv : GOEnv := { selfLinkEnv with linkedRespawnTime := 0 }

/-- A compatibility-mode, not-spawned-by-default instance in Ready
loot-state whose respawn timer expires at `noLinkEnv.now`. -/
def expiredUnspawnedGO : GameObject :=
  { selfLinkedPendingGO with spawnedByDefault := false }

/-- Claim C4, witness at the concrete expired instance: it deactivates and
is then removed with no respawn scheduled. -/
theorem ready_unspawned_expiry_removed_witness :
    expiredUnspawnedGO.respawnCompatibilityMode = true ∧
    expiredUnspawnedGO.lootState = LootState.ready ∧
    expiredUnspawnedGO.spawnedByDefault = false ∧
    0 < expiredUnspawnedGO.respawnTime ∧
    expiredUnspawnedGO.respawnTime ≤ noLinkEnv.now ∧
    noLinkEnv.linkedRespawnTime = 0 ∧
    expiredUnspawnedGO.respawnDelayTime ≠ 0 ∧
    expiredUnspawnedGO.spellId = 0 ∧
    expiredUnspawnedGO.ownerGUID = none ∧
    noLinkEnv.overrideFlagsNoDespawn = false ∧
    ((updateGoReady noLinkEnv expiredUnspawnedGO).1.lootState =
       LootState.justDeactivated ∧
     GOEvent.addToMap ∉ (updateGoReady noLinkEnv expiredUnspawnedGO).2 ∧
     GOEvent.updatePool ∉ (updateGoReady noLinkEnv expiredUnspawnedGO).2 ∧
     (updateGoJustDeactivated noLinkEnv
        (updateGoReady noLinkEnv expiredUnspawnedGO).1).1.respawnTime = 0 ∧
     (GOEvent.destroyForNearbyPlayers ∈
        (updateGoJustDeactivated noLinkEnv
          (updateGoReady noLinkEnv expiredUnspawnedGO).1).2 ∨
      GOEvent.addObjectToRemoveList ∈
        (updateGoJustDeactivated noLinkEnv
          (updateGoReady noLinkEnv expiredUnspawnedGO).1).2) ∧
     GOEvent.saveRespawnTimeDB ∉
       (updateGoJustDeactivated noLinkEnv
         (updateGoReady noLinkEnv expiredUnspawnedGO).1).2 ∧
     (∀ b : Bool, GOEvent.saveRespawnTimeMapMemory b ∉
       (updateGoJustDeactivated noLinkEnv
         (updateGoReady noLinkEnv expiredUnspawnedGO).1).2) ∧
     GOEvent.addToMap ∉
       (updateGoJustDeactivated noLinkEnv
         (updateGoReady noLinkEnv expiredUnspawnedGO).1).2 ∧
     GOEvent.updatePool ∉
       (updateGoJustDeactivated noLinkEnv
         (updateGoReady noLinkEnv expiredUnspawnedGO).1).2) :=
  ⟨rfl, rfl, rfl, by decide, by decide, rfl, by decide, rfl, rfl, rfl,
   ready_unspawned_expiry_removed noLinkEnv noLinkEnv expiredUnspawnedGO
     rfl rfl rfl (by decide) (by decide) rfl (by decide) rfl rfl rfl⟩

/-- Helper: membership in the failsafe grid spells out the ±750 coordinate
bounds. -/
theorem mem_boundaryGridCells {c : Coordinate} :
    c ∈ boundaryGridCells ↔
      -750 ≤ c.1 ∧ c.1 ≤ 750 ∧ -750 ≤ c.2 ∧ c.2 ≤ 750 := by
  unfold boundaryGridCells BOUNDARY_VISUALIZE_FAILSAFE_LIMIT
  rw [Finset.mem_product, Finset.mem_Icc, Finset.mem_Icc]
  tauto

/-- Helper: the failsafe grid holds exactly (2·750+1)² cells. -/
theorem boundaryGridCells_card : boundaryGridCells.card = 1501 * 1501 := by
  unfold boundaryGridCells BOUNDARY_VISUALIZE_FAILSAFE_LIMIT
  rw [Finset.card_product, Int.card_Icc]
  rfl

attribute [irreducible] boundaryGridCells

/-- Termination measure of the flood-fill loop: twice the number of
unvisited grid cells plus the queue length. -/
def fillMeasure (st : FillState) : Nat :=
  2 * (1501 * 1501 - st.alreadyChecked.card) + st.Q.length

set_option maxRecDepth 4096 in
/-- Helper: one neighbor check keeps the checked set inside the grid, only
grows it, and never increases the measure. -/
theorem checkNeighbor_inv (containsCell : Coordinate → Bool)
    (front : Coordinate) (acc : FillState × Bool) (off : Coordinate)
    (hsub : acc.1.alreadyChecked ⊆ boundaryGridCells) :
    (checkNeighbor containsCell front acc off).1.alreadyChecked ⊆
      boundaryGridCells ∧
    acc.1.alreadyChecked ⊆
      (checkNeighbor containsCell front acc off).1.alreadyChecked ∧
    fillMeasure (checkNeighbor containsCell front acc off).1 ≤
      fillMeasure acc.1 := by
  have hcard : acc.1.alreadyChecked.card ≤ 1501 * 1501 := by
    rw [← boundaryGridCells_card]
    exact Finset.card_le_card hsub
  unfold checkNeighbor
  dsimp only
  split
  · exact ⟨hsub, Finset.Subset.refl _, le_of_eq rfl⟩
  · rename_i hcap
    have hmem : ((front.1 + off.1, front.2 + off.2) : Coordinate) ∈
        boundaryGridCells := by
      rw [mem_boundaryGridCells]
      unfold BOUNDARY_VISUALIZE_FAILSAFE_LIMIT at hcap
      push_neg at hcap
      exact ⟨hcap.2.1, hcap.1, hcap.2.2.2, hcap.2.2.1⟩
    split
    · rename_i hfresh
      have hins : insert ((front.1 + off.1, front.2 + off.2) : Coordinate)
          acc.1.alreadyChecked ⊆ boundaryGridCells :=
        Finset.insert_subset_iff.mpr ⟨hmem, hsub⟩
      have hinscard : (insert ((front.1 + off.1, front.2 + off.2) : Coordinate)
          acc.1.alreadyChecked).card = acc.1.alreadyChecked.card + 1 :=
        Finset.card_insert_of_not_mem hfresh
      have hinsle : acc.1.alreadyChecked.card + 1 ≤ 1501 * 1501 := by
        rw [← hinscard, ← boundaryGridCells_card]
        exact Finset.card_le_card hins
      split
      · refine ⟨hins, Finset.subset_insert _ _, ?_⟩
        unfold fillMeasure
        dsimp only
        rw [hinscard, List.length_append]
        simp only [List.length_singleton]
        omega
      · refine ⟨hins, Finset.subset_insert _ _, ?_⟩
        unfold fillMeasure
        dsimp only
        rw [hinscard]
        omega
    · split
      · exact ⟨hsub, Finset.Subset.refl _, le_of_eq rfl⟩
      · exact ⟨hsub, Finset.Subset.refl _, le_of_eq rfl⟩

/-- Helper: expanding one queue cell keeps the checked set inside the grid,
only grows it, and never increases the measure. -/
theorem expandFront_inv (containsCell : Coordinate → Bool)
    (front : Coordinate) (st : FillState)
    (hsub : st.alreadyChecked ⊆ boundaryGridCells) :
    (expandFront containsCell front st).1.alreadyChecked ⊆
      boundaryGridCells ∧
    st.alreadyChecked ⊆ (expandFront containsCell front st).1.alreadyChecked ∧
    fillMeasure (expandFront containsCell front st).1 ≤ fillMeasure st := by
  unfold expandFront
  simp only [List.foldl]
  obtain ⟨a1, a2, a3⟩ :=
    checkNeighbor_inv containsCell front (st, false) (1, 0) hsub
  obtain ⟨b1, b2, b3⟩ := checkNeighbor_inv containsCell front _ (0, 1) a1
  obtain ⟨c1, c2, c3⟩ := checkNeighbor_inv containsCell front _ (-1, 0) b1
  obtain ⟨d1, d2, d3⟩ := checkNeighbor_inv containsCell front _ (0, -1) c1
  exact ⟨d1, (a2.trans b2).trans (c2.trans d2),
    le_trans d3 (le_trans c3 (le_trans b3 a3))⟩

/-- Helper: the flood-fill loop completes (the fuel is never exhausted)
whenever the fuel exceeds the measure, and the completed state's checked set
stays inside the failsafe grid. -/
theorem visualizeLoop_completes (containsCell : Coordinate → Bool)
    (fill : Bool) :
    ∀ fuel st, st.alreadyChecked ⊆ boundaryGridCells →
    fillMeasure st < fuel →
    ∃ stF, visualizeLoop containsCell fill fuel st = some stF ∧
      stF.alreadyChecked ⊆ boundaryGridCells := by
  intro fuel
  induction fuel with
  | zero =>
    intro st _ hm
    exact absurd hm (Nat.not_lt_zero _)
  | succ fuel ih =>
    intro st hsub hm
    cases hQ : st.Q with
    | nil =>
      refine ⟨st, ?_, hsub⟩
      simp [visualizeLoop, hQ]
    | cons front rest =>
      have hsubPre : ({ st with Q := rest } : FillState).alreadyChecked ⊆
          boundaryGridCells := hsub
      obtain ⟨e1, e2, e3⟩ :=
        expandFront_inv containsCell front { st with Q := rest } hsubPre
      have hqlen : fillMeasure { st with Q := rest } + 1 = fillMeasure st := by
        unfold fillMeasure
        dsimp only
        rw [hQ]
        simp [List.length_cons]
        omega
      have hmeas1 : fillMeasure st ≤ fuel := Nat.lt_succ_iff.mp hm
      by_cases hfillOOB :
          (fill || (expandFront containsCell front { st with Q := rest }).2) = true
      · have hsub2 : ({ (expandFront containsCell front { st with Q := rest }).1
            with markers := (expandFront containsCell front
              { st with Q := rest }).1.markers ++
              [⟨front, !(expandFront containsCell front
                { st with Q := rest }).2⟩] } : FillState).alreadyChecked ⊆
            boundaryGridCells := e1
        have hmeas2 : fillMeasure { (expandFront containsCell front
            { st with Q := rest }).1 with markers :=
              (expandFront containsCell front { st with Q := rest }).1.markers ++
              [⟨front, !(expandFront containsCell front
                { st with Q := rest }).2⟩] } < fuel := by
          have : fillMeasure { (expandFront containsCell front
              { st with Q := rest }).1 with markers :=
                (expandFront containsCell front { st with Q := rest }).1.markers ++
                [⟨front, !(expandFront containsCell front
                  { st with Q := rest }).2⟩] } =
              fillMeasure (expandFront containsCell front
                { st with Q := rest }).1 := rfl
          omega
        obtain ⟨stF, hF1, hF2⟩ := ih _ hsub2 hmeas2
        refine ⟨stF, ?_, hF2⟩
        simp only [visualizeLoop, hQ, hfillOOB, if_true]
        exact hF1
      · have hmeas2 : fillMeasure (expandFront containsCell front
            { st with Q := rest }).1 < fuel := by omega
        obtain ⟨stF, hF1, hF2⟩ := ih _ e1 hmeas2
        refine ⟨stF, ?_, hF2⟩
        simp only [visualizeLoop, hQ, hfillOOB, Bool.false_eq_true, if_false]
        exact hF1

/-- Helper: a result whose fill never ran satisfies the boundedness
conclusions vacuously. -/
theorem visualizeResult_notRun_ok (s : Int) (seed : Option Position)
    (C : Prop) :
    fuelRanOut ⟨s, seed, FillOutcome.notRun⟩ = false ∧
    (visitedCells ⟨s, seed, FillOutcome.notRun⟩).card ≤ 1501 * 1501 ∧
    visitedCells ⟨s, seed, FillOutcome.notRun⟩ ⊆ boundaryGridCells ∧
    (fillCompleted ⟨s, seed, FillOutcome.notRun⟩ = true → C) :=
  ⟨rfl, by simp [visitedCells], by simp [visitedCells],
   fun h => absurd h (by simp [fillCompleted])⟩

/-- Helper: the flood fill started from the origin cell completes within
the fuel budget of `VisualizeBoundary`. -/
theorem visualizeLoop_st0_completes (f : Coordinate → Bool) (fill : Bool) :
    ∃ stF, visualizeLoop f fill visualizeFuel
      { Q := [(0, 0)], alreadyChecked := ∅, outOfBounds := ∅,
        boundsWarning := false, markers := [] } = some stF ∧
      stF.alreadyChecked ⊆ boundaryGridCells :=
  visualizeLoop_completes f fill visualizeFuel _ (by simp)
    (by
      unfold fillMeasure visualizeFuel
      simp)

/-- Claim C2: for every boundary and seed the diagnostic flood fill
terminates within its fuel budget (the fuel-exhausted outcome is
unreachable), visits at most (2·750+1)² distinct grid cells — every checked
cell lies within the ±750 failsafe cap on both axes — and whenever a
neighbor beyond the cap was encountered (the warning flag is set) the
returned status is the possibly-unbounded warning instead of success, the
fill having run to completion rather than aborting. -/
theorem visualizeBoundary_flood_fill_bounded
    (ai : BoundaryAIState) (duration : Nat) (owner : Option Position)
    (fill : Bool) :
    fuelRanOut (VisualizeBoundary ai duration owner fill) = false ∧
    (visitedCells (VisualizeBoundary ai duration owner fill)).card ≤
      1501 * 1501 ∧
    visitedCells (VisualizeBoundary ai duration owner fill) ⊆
      boundaryGridCells ∧
    (fillCompleted (VisualizeBoundary ai duration owner fill) = true →
      (VisualizeBoundary ai duration owner fill).status =
        (if fillWarning (VisualizeBoundary ai duration owner fill) then
          LANG_CREATURE_MOVEMENT_MAYBE_UNBOUNDED
         else 0)) := by
  unfold VisualizeBoundary
  cases owner with
  | none => exact visualizeResult_notRun_ok _ _ _
  | some ownerPos =>
    cases hb : ai.boundary with
    | none => exact visualizeResult_notRun_ok _ _ _
    | some b =>
      by_cases hempty : b.isEmpty
      · simp only [hempty, if_true]
        exact visualizeResult_notRun_ok _ _ _
      · simp only [hempty, Bool.false_eq_true, if_false]
        by_cases h1 : IsInBoundary ai (some ownerPos)
        · simp only [h1, if_true]
          obtain ⟨stF, hF1, hF2⟩ := visualizeLoop_st0_completes
            (fun c => IsInBoundary ai (some
              (ownerPos.1 + c.1 * BOUNDARY_VISUALIZE_STEP_SIZE,
               ownerPos.2 + c.2 * BOUNDARY_VISUALIZE_STEP_SIZE))) fill
          simp only [hF1]
          refine ⟨rfl, ?_, hF2, ?_⟩
          · rw [← boundaryGridCells_card]
            exact Finset.card_le_card hF2
          · intro _
            rfl
        · by_cases h2 : IsInBoundary ai (some ai.mePosition)
          · simp only [eq_false_of_ne_true h1, h2, Bool.false_eq_true,
              if_false, if_true]
            obtain ⟨stF, hF1, hF2⟩ := visualizeLoop_st0_completes
              (fun c => IsInBoundary ai (some
                (ai.mePosition.1 + c.1 * BOUNDARY_VISUALIZE_STEP_SIZE,
                 ai.mePosition.2 + c.2 * BOUNDARY_VISUALIZE_STEP_SIZE))) fill
            simp only [hF1]
            refine ⟨rfl, ?_, hF2, ?_⟩
            · rw [← boundaryGridCells_card]
              exact Finset.card_le_card hF2
            · intro _
              rfl
          · by_cases h3 : IsInBoundary ai (some ai.meHomePosition)
            · simp only [eq_false_of_ne_true h1, eq_false_of_ne_true h2, h3,
                Bool.false_eq_true, if_false, if_true]
              obtain ⟨stF, hF1, hF2⟩ := visualizeLoop_st0_completes
                (fun c => IsInBoundary ai (some
                  (ai.meHomePosition.1 + c.1 * BOUNDARY_VISUALIZE_STEP_SIZE,
                   ai.meHomePosition.2 + c.2 * BOUNDARY_VISUALIZE_STEP_SIZE)))
                fill
              simp only [hF1]
              refine ⟨rfl, ?_, hF2, ?_⟩
              · rw [← boundaryGridCells_card]
                exact Finset.card_le_card hF2
              · intro _
                rfl
            · simp only [eq_false_of_ne_true h1, eq_false_of_ne_true h2,
                eq_false_of_ne_true h3, Bool.false_eq_true, if_false]
              exact visualizeResult_notRun_ok _ _ _

/-- Claim C2, witness: the fill over the concrete square boundary completes
with success status and an in-cap visited count. -/
theorem visualizeBoundary_flood_fill_bounded_witness :
    fuelRanOut (VisualizeBoundary squareAI 5 (some (1, 2)) false) = false ∧
    fillCompleted (VisualizeBoundary squareAI 5 (some (1, 2)) false) = true ∧
    (VisualizeBoundary squareAI 5 (some (1, 2)) false).status =
      (if fillWarning (VisualizeBoundary squareAI 5 (some (1, 2)) false) then
        LANG_CREATURE_MOVEMENT_MAYBE_UNBOUNDED
       else 0) ∧
    (visitedCells (VisualizeBoundary squareAI 5 (some (1, 2)) false)).card ≤
      1501 * 1501 := by
  have h := visualizeBoundary_flood_fill_bounded squareAI 5 (some (1, 2)) false
  exact ⟨h.1, by decide, h.2.2.2 (by decide), h.2.1⟩
